import Mathlib

/-!
# Motion: a driver for the MMA7455 accelerometer on the two-wire bus

A shallow embedding of `src/Motion.h` and `src/Motion.cpp`.

* The `Wire` object of the Arduino core is not part of the repository.  It is a
  parameter of every function: a record `TwoWire σ` of the calls the driver makes,
  acting on an arbitrary bus state `σ`.
* Every call the driver makes on `Wire` (and every `delay`) is appended to a log,
  so that statements about what the bus sees can be written down.
* `uint8_t` values are naturals, reduced modulo 256 wherever the source stores a wider
  result in a `uint8_t`.  `int` is the 16-bit `int` of the AVR targets of the
  Arduino core; the union `accelerometer` is then six bytes, each `int` of
  its `values` view overlaying a low and a high byte (little endian).
* A `uint8_t *` buffer is the list of the bytes it points at.
-/

set_option autoImplicit false
set_option maxRecDepth 100000

/-! ## Constants of `Motion.h` -/

/-- Address of the accelerometer. -/
abbrev ACCELEROMETER : Nat := 0x1D

/-- Register containing the value for X LSB. -/
abbrev XL_OUT : Nat := 0x00
/-- Offset drift X value LSB register. -/
abbrev XL_OFF : Nat := 0x10
/-- Mode control register. -/
abbrev MODE_CONTROL : Nat := 0x16
/-- Interrupt latch reset. -/
abbrev INTRESET : Nat := 0x17
/-- Control 1 register. -/
abbrev CTL1 : Nat := 0x18

/-- Standby mode. -/
abbrev STANDBY : Nat := 0x00
/-- Measurement mode. -/
abbrev MEASUREMENT : Nat := 0x01
/-- Level detection mode. -/
abbrev LEVEL : Nat := 0x02
/-- Pulse detection mode. -/
abbrev PULSE : Nat := 0x03

/-- Set sensitivity to 8g. -/
abbrev GS_8G_MODE : Nat := 0x00
/-- Set sensitivity to 2g. -/
abbrev GS_2G_MODE : Nat := 0x04
/-- Set sensitivity to 4g. -/
abbrev GS_4G_MODE : Nat := 0x08

/-- Clear both latches. -/
abbrev CLEAR : Nat := 0x03
/-- Enable registers. -/
abbrev ENABLE : Nat := 0x00

/-- Success. -/
abbrev SUCCESS : Nat := 0x00
/-- Data too long to fit in transmit buffer. -/
abbrev TOOLONG : Nat := 0x01
/-- Received NACK on transmit of address. -/
abbrev NACKA : Nat := 0x02
/-- Received NACK on transmit of data. -/
abbrev NACKD : Nat := 0x03
/-- Unknown or other error. -/
abbrev UNKNOWN : Nat := 0x04
/-- No data returned. -/
abbrev NODATA : Nat := 0x05
/-- Did not write any data. -/
abbrev NOWRITE : Nat := 0x06
/-- Buffer length not equal to actual size. -/
abbrev BADLENGTH : Nat := 0x07

/-! ## The bus -/

/-- One call made by the driver on the `Wire` object, or a `delay`. -/
inductive Call where
  | beginTransmission (device : Nat)
  | write (byte : Nat)
  | writeBuffer (bytes : List Nat) (size : Nat)
  | endTransmission (sendStop : Bool)
  | requestFrom (device : Nat) (size : Nat)
  | available
  | read
  | delay (ms : Nat)
  deriving DecidableEq, Repr

/-- The calls of the Arduino core that the driver uses, over a bus state `σ`.
`write` is `Wire.write(uint8_t)` and `writeBuffer` is
`Wire.write(const uint8_t *, size_t)`; both answer the number of bytes taken.
`endTransmission` answers the status of the transfer, `requestFrom` the number of
bytes granted, `available` the number of bytes waiting, `read` the next byte (or
a negative number). -/
structure TwoWire (σ : Type) where
  beginTransmission : Nat → σ → σ
  write : Nat → σ → Nat × σ
  writeBuffer : List Nat → Nat → σ → Nat × σ
  endTransmission : Bool → σ → Nat × σ
  requestFrom : Nat → Nat → σ → Nat × σ
  available : σ → Int × σ
  read : σ → Int × σ
  delay : Nat → σ → σ

/-- The bus state together with the log of the calls made so far. -/
structure Bus (σ : Type) where
  st : σ
  log : List Call

namespace Wire

variable {σ : Type}

/-- Logged `Wire.beginTransmission(device)`. -/
def beginTransmission (W : TwoWire σ) (device : Nat) (b : Bus σ) : Bus σ :=
  ⟨W.beginTransmission device b.st, b.log ++ [Call.beginTransmission device]⟩

/-- Logged `Wire.write(byte)`. -/
def write (W : TwoWire σ) (byte : Nat) (b : Bus σ) : Nat × Bus σ :=
  ((W.write byte b.st).1, ⟨(W.write byte b.st).2, b.log ++ [Call.write byte]⟩)

/-- Logged `Wire.write(buffer, size)`. -/
def writeBuffer (W : TwoWire σ) (buffer : List Nat) (size : Nat) (b : Bus σ) : Nat × Bus σ :=
  ((W.writeBuffer buffer size b.st).1,
    ⟨(W.writeBuffer buffer size b.st).2, b.log ++ [Call.writeBuffer buffer size]⟩)

/-- Logged `Wire.endTransmission(sendStop)`. -/
def endTransmission (W : TwoWire σ) (sendStop : Bool) (b : Bus σ) : Nat × Bus σ :=
  ((W.endTransmission sendStop b.st).1,
    ⟨(W.endTransmission sendStop b.st).2, b.log ++ [Call.endTransmission sendStop]⟩)

/-- Logged `Wire.requestFrom(device, size)`. -/
def requestFrom (W : TwoWire σ) (device size : Nat) (b : Bus σ) : Nat × Bus σ :=
  ((W.requestFrom device size b.st).1,
    ⟨(W.requestFrom device size b.st).2, b.log ++ [Call.requestFrom device size]⟩)

/-- Logged `Wire.available()`. -/
def available (W : TwoWire σ) (b : Bus σ) : Int × Bus σ :=
  ((W.available b.st).1, ⟨(W.available b.st).2, b.log ++ [Call.available]⟩)

/-- Logged `Wire.read()`. -/
def read (W : TwoWire σ) (b : Bus σ) : Int × Bus σ :=
  ((W.read b.st).1, ⟨(W.read b.st).2, b.log ++ [Call.read]⟩)

/-- Logged `delay(ms)`. -/
def delay (W : TwoWire σ) (ms : Nat) (b : Bus σ) : Bus σ :=
  ⟨W.delay ms b.st, b.log ++ [Call.delay ms]⟩

/-- One turn of the loop of `Motion::read`, seen from the bus: the receive queue
is tested with `Wire.available()`, then a byte is fetched with `Wire.read()`. -/
def fetch (W : TwoWire σ) (b : Bus σ) : Int × Bus σ :=
  read W (available W b).2

end Wire

/-! ## The union `accelerometer` -/

/-- The `registers` view of the union: six bytes. -/
structure accelerometer where
  x_lsb : Nat
  x_msb : Nat
  y_lsb : Nat
  y_msb : Nat
  z_lsb : Nat
  z_msb : Nat
  deriving DecidableEq, Repr

/-- The 16-bit two's-complement `int` stored in a low and a high byte. -/
def toInt16 (lsb msb : Nat) : Int :=
  if (lsb + 256 * msb) % 65536 < 32768 then ((lsb + 256 * msb) % 65536 : Nat)
  else (((lsb + 256 * msb) % 65536 : Nat) : Int) - 65536

/-- Reduction of an integer to the range of the 16-bit `int`. -/
def wrap16 (v : Int) : Int :=
  if v % 65536 < 32768 then v % 65536 else v % 65536 - 65536

/-- Low byte of a 16-bit `int`. -/
def lowByte (v : Int) : Nat := (v % 65536).toNat % 256

/-- High byte of a 16-bit `int`. -/
def highByte (v : Int) : Nat := (v % 65536).toNat / 256

namespace accelerometer

/-- Field `values.x` of the union. -/
def values_x (a : accelerometer) : Int := toInt16 a.x_lsb a.x_msb
/-- Field `values.y` of the union. -/
def values_y (a : accelerometer) : Int := toInt16 a.y_lsb a.y_msb
/-- Field `values.z` of the union. -/
def values_z (a : accelerometer) : Int := toInt16 a.z_lsb a.z_msb

/-- Assignment to `values.x`. -/
def set_x (a : accelerometer) (v : Int) : accelerometer :=
  { a with x_lsb := lowByte v, x_msb := highByte v }
/-- Assignment to `values.y`. -/
def set_y (a : accelerometer) (v : Int) : accelerometer :=
  { a with y_lsb := lowByte v, y_msb := highByte v }
/-- Assignment to `values.z`. -/
def set_z (a : accelerometer) (v : Int) : accelerometer :=
  { a with z_lsb := lowByte v, z_msb := highByte v }

/-- The union seen through a `uint8_t *`. -/
def bytes (a : accelerometer) : List Nat :=
  [a.x_lsb, a.x_msb, a.y_lsb, a.y_msb, a.z_lsb, a.z_msb]

/-- The union whose storage holds the given bytes. -/
def ofBytes (l : List Nat) : accelerometer :=
  ⟨l.getD 0 0, l.getD 1 0, l.getD 2 0, l.getD 3 0, l.getD 4 0, l.getD 5 0⟩

end accelerometer

/-! ## The driver -/

/-- The private fields of the class. -/
structure Motion where
  mode : Nat
  sensitivity : Nat
  deriving DecidableEq, Repr

namespace Motion

variable {σ : Type}

/-- The method `Motion::write(address, buffer, size)`. -/
def write (W : TwoWire σ) (address : Nat) (buffer : List Nat) (size : Nat) (b : Bus σ) :
    Nat × Bus σ :=
  let b := Wire.beginTransmission W ACCELEROMETER b
  let r := Wire.write W address b
  let n := r.1 % 256
  if n ≠ 1 then (NOWRITE, r.2)
  else
    let r := Wire.writeBuffer W buffer size r.2
    let n := r.1 % 256
    if n ≠ size then (NOWRITE, r.2)
    else
      let r := Wire.endTransmission W true r.2
      let error := r.1 % 256
      if error ≠ SUCCESS then (error, r.2)
      else (SUCCESS, r.2)

/-- The loop `while (Wire.available () > 0 && i < size) buffer[i++] = Wire.read();`
of `Motion::read`.  The first argument bounds the number of tests of the loop
condition; `size + 1` tests are always enough. -/
def drain (W : TwoWire σ) (size : Nat) : Nat → Nat → List Nat → Bus σ → Nat × List Nat × Bus σ
  | 0, i, buffer, b => (i, buffer, b)
  | fuel + 1, i, buffer, b =>
    let a := Wire.available W b
    if a.1 > 0 ∧ i < size then
      let r := Wire.read W a.2
      drain W size fuel (i + 1) (buffer.set i (r.1 % 256).toNat) r.2
    else (i, buffer, a.2)

/-- The method `Motion::read(address, buffer, size)`; the buffer is handed back with the
bytes stored in it. -/
def read (W : TwoWire σ) (address : Nat) (buffer : List Nat) (size : Nat) (b : Bus σ) :
    Nat × List Nat × Bus σ :=
  let b := Wire.beginTransmission W ACCELEROMETER b
  let r := Wire.write W address b
  let n := r.1 % 256
  if n ≠ 1 then (NOWRITE, buffer, r.2)
  else
    let r := Wire.endTransmission W false r.2
    let n := r.1 % 256
    if n ≠ 0 then (n, buffer, r.2)
    else
      let r := Wire.requestFrom W ACCELEROMETER size r.2
      let n := r.1 % 256
      if n ≠ size then (BADLENGTH, buffer, r.2)
      else
        let d := drain W size (size + 1) 0 buffer r.2
        if d.1 ≠ size then (BADLENGTH, d.2.1, d.2.2)
        else (SUCCESS, d.2.1, d.2.2)

/-- The method `Motion::setMode(mask)`. -/
def setMode (W : TwoWire σ) (mask : Nat) (self : Motion) (b : Bus σ) : Nat × Motion × Bus σ :=
  let r := write W MODE_CONTROL [mask] 1 b
  if r.1 ≠ SUCCESS then (r.1, self, r.2)
  else (SUCCESS, { mode := mask &&& 0x03, sensitivity := mask &&& 0x0C }, r.2)

/-- The method `Motion::setInterrupts(mask)`. -/
def setInterrupts (W : TwoWire σ) (mask : Nat) (b : Bus σ) : Nat × Bus σ :=
  let r := write W CTL1 [mask] 1 b
  if r.1 ≠ SUCCESS then (r.1, r.2)
  else (SUCCESS, r.2)

/-- The method `Motion::clearInterruptLatch()`.  The source passes `(uint8_t *)CLEAR` and
`(uint8_t *)ENABLE` as buffers: the constants are cast to pointers, so the byte
sent is the one stored in data memory `mem` at address `CLEAR`, then at address
`ENABLE`. -/
def clearInterruptLatch (W : TwoWire σ) (mem : Nat → Nat) (b : Bus σ) : Nat × Bus σ :=
  let r := write W INTRESET [mem CLEAR] 1 b
  if r.1 ≠ SUCCESS then (r.1, r.2)
  else
    let r := write W INTRESET [mem ENABLE] 1 r.2
    if r.1 ≠ SUCCESS then (r.1, r.2)
    else (SUCCESS, r.2)

/-- The method `Motion::orientation(x, y, z)`.  `xyz` is the content of the local union before
the read (it is not initialised by the source); `x`, `y`, `z` are the values the
three outputs hold before the call, and the result carries those they hold
after it. -/
def orientation (W : TwoWire σ) (xyz : accelerometer) (x y z : Int) (b : Bus σ) :
    Nat × (Int × Int × Int) × Bus σ :=
  let r := read W XL_OUT xyz.bytes 6 b
  if r.1 ≠ SUCCESS then (r.1, (x, y, z), r.2.2)
  else
    let xyz := accelerometer.ofBytes r.2.1
    let xyz := if xyz.x_msb &&& 0x02 ≠ 0 then { xyz with x_msb := xyz.x_msb ||| 0xFC } else xyz
    let xyz := if xyz.y_msb &&& 0x02 ≠ 0 then { xyz with y_msb := xyz.y_msb ||| 0xFC } else xyz
    let xyz := if xyz.z_msb &&& 0x02 ≠ 0 then { xyz with z_msb := xyz.z_msb ||| 0xFC } else xyz
    (SUCCESS, (xyz.values_x, xyz.values_y, xyz.values_z), r.2.2)

/-- The method `Motion::getMode()`. -/
def getMode (self : Motion) : Nat := self.mode

/-- The method `Motion::getSensitivity()`. -/
def getSensitivity (self : Motion) : Nat :=
  if self.sensitivity = GS_8G_MODE then 0x10
  else if self.sensitivity = GS_2G_MODE then 0x40
  else if self.sensitivity = GS_4G_MODE then 0x20
  else 0x01

/-- One pass through the body of the `do ... while` loop of `Motion::calibrate`. -/
def calibrateStep (W : TwoWire σ) (sensitivity : Nat) (xyz acc : accelerometer) (b : Bus σ) :
    accelerometer × Bus σ :=
  let o := orientation W xyz acc.values_x acc.values_y acc.values_z b
  let acc := ((acc.set_x o.2.1.1).set_y o.2.1.2.1).set_z o.2.1.2.2
  let acc := acc.set_x (wrap16 (acc.values_x + 2 * -acc.values_x))
  let acc := acc.set_y (wrap16 (acc.values_y + 2 * -acc.values_y))
  let acc := acc.set_z (wrap16 (acc.values_z + 2 * -(acc.values_z - sensitivity)))
  let w := write W XL_OFF acc.bytes 6 o.2.2
  (acc, Wire.delay W 200 w.2)

/-- The loop `do { ... } while (++i < 3);` of `Motion::calibrate`, from the value `i`
of the counter.  The first argument bounds the number of passes; three are
always enough. -/
def calibrateLoop (W : TwoWire σ) (sensitivity : Nat) (xyz : accelerometer) :
    Nat → Int → accelerometer → Bus σ → accelerometer × Bus σ
  | 0, _, acc, b => (acc, b)
  | fuel + 1, i, acc, b =>
    let s := calibrateStep W sensitivity xyz acc b
    if i + 1 < 3 then calibrateLoop W sensitivity xyz fuel (i + 1) s.1 s.2
    else s

/-- The method `Motion::calibrate()`.  `acc` is the content of the local union on entry, `xyz`
that of the local union of `orientation`; the source initialises neither. -/
def calibrate (W : TwoWire σ) (self : Motion) (xyz acc : accelerometer) (b : Bus σ) : Bus σ :=
  let sensitivity := getSensitivity self
  (calibrateLoop W sensitivity xyz 3 0 acc b).2

/-- The constructor `Motion::Motion(mask)`; `self` holds the fields before they are
set. -/
def new (W : TwoWire σ) (mask : Nat) (self : Motion) (xyz acc : accelerometer) (b : Bus σ) :
    Motion × Bus σ :=
  let r := setMode W mask self b
  (r.2.1, calibrate W r.2.1 xyz acc r.2.2)

end Motion

/-! ## A scripted bus -/

/-- A bus whose answers are fixed in advance. -/
structure Script where
  /-- Answer to `Wire.write(address)`. -/
  addressCount : Nat
  /-- Answer to `Wire.write(buffer, size)`; `none` answers `size`. -/
  payloadCount : Option Nat
  /-- Answer to `Wire.endTransmission`. -/
  status : Nat
  /-- Answer to `Wire.requestFrom`; `none` answers the size asked for. -/
  granted : Option Nat
  /-- Bytes the device puts in the receive queue at each request. -/
  sample : List Nat
  /-- The receive queue. -/
  rx : List Nat
  deriving DecidableEq, Repr

/-- The calls of the Arduino core on a scripted bus. -/
def scripted : TwoWire Script where
  beginTransmission := fun _ s => s
  write := fun _ s => (s.addressCount, s)
  writeBuffer := fun _ size s => (s.payloadCount.getD size, s)
  endTransmission := fun _ s => (s.status, s)
  requestFrom := fun _ size s => (s.granted.getD size, { s with rx := s.sample })
  available := fun s => ((s.rx.length : Int), s)
  read := fun s =>
    match s.rx with
    | [] => (-1, s)
    | v :: rest => ((v : Int), { s with rx := rest })
  delay := fun _ s => s

/-- A scripted bus that accepts every byte and delivers `sample` to every
request. -/
def accepting (sample : List Nat) : Bus Script :=
  ⟨⟨1, none, 0, none, sample, []⟩, []⟩

/-- A scripted bus that does not take the address byte. -/
def rejecting : Bus Script :=
  ⟨⟨0, none, 0, none, [], []⟩, []⟩

/-- A scripted bus that accepts every byte and reports 257 bytes taken for every
payload. -/
def overcounting (sample : List Nat) : Bus Script :=
  ⟨⟨1, some 257, 0, none, sample, []⟩, []⟩

/-- A data memory with `0x00` at address `CLEAR` and `0xFF` elsewhere. -/
def sampleMemory (address : Nat) : Nat :=
  if address = CLEAR then 0x00 else 0xFF

/-! ## Vocabulary of the statements -/

/-- The calls one `Motion::write(address, buffer, size)` can make: it stops after
the address byte, after the payload, or runs to the end of the transmission. -/
def writeCalls (address : Nat) (buffer : List Nat) (size : Nat) : List (List Call) :=
  [[Call.beginTransmission ACCELEROMETER, Call.write address],
   [Call.beginTransmission ACCELEROMETER, Call.write address, Call.writeBuffer buffer size],
   [Call.beginTransmission ACCELEROMETER, Call.write address, Call.writeBuffer buffer size,
     Call.endTransmission true]]

/-- The calls a `Motion::read(address, buffer, size)` can make. -/
def readPhase (address size : Nat) : Call → Bool
  | Call.beginTransmission device => decide (device = ACCELEROMETER)
  | Call.write byte => decide (byte = address)
  | Call.endTransmission sendStop => !sendStop
  | Call.requestFrom device n => decide (device = ACCELEROMETER ∧ n = size)
  | Call.available => true
  | Call.read => true
  | Call.writeBuffer _ _ => false
  | Call.delay _ => false

/-- A call that opens a transmission. -/
def Call.isBegin : Call → Bool
  | Call.beginTransmission _ => true
  | _ => false

/-- A call that hands a payload to the bus. -/
def Call.isPayload : Call → Bool
  | Call.writeBuffer _ _ => true
  | _ => false

/-- A call of `delay`. -/
def Call.isDelay : Call → Bool
  | Call.delay _ => true
  | _ => false

/-- The scale byte the specification gives for a sensitivity. -/
def scaleByte (sensitivity : Nat) : Nat :=
  if sensitivity = 0x00 then 0x10
  else if sensitivity = 0x04 then 0x40
  else if sensitivity = 0x08 then 0x20
  else 0x01

/-- The two's-complement reading of the 10-bit field held in a low byte `L` and
the two low bits of a high byte `H`, as the specification words it. -/
def twosComplement10 (L H : Nat) : Int :=
  if (H &&& 0x03) * 256 + L < 512 then (((H &&& 0x03) * 256 + L : Nat) : Int)
  else (((H &&& 0x03) * 256 + L : Nat) : Int) - 1024

/-! ## Arithmetic of the bit fields -/

theorem and_twelve_mod (m : Nat) : m &&& 12 = (m % 16) &&& 12 := by
  have h := Nat.and_pow_two_sub_one_eq_mod m 4
  have e : (m &&& 15) &&& 12 = m &&& 12 := by
    rw [Nat.and_assoc]
    rfl
  rw [← e]
  simp at h
  rw [h]

theorem sensitivity_field_cases (m : Nat) :
    m &&& 12 = 0 ∨ m &&& 12 = 4 ∨ m &&& 12 = 8 ∨ m &&& 12 = 12 := by
  rw [and_twelve_mod]
  have h : m % 16 < 16 := Nat.mod_lt _ (by decide)
  revert h
  generalize m % 16 = k
  intro h
  interval_cases k <;> decide

theorem high_byte_bits : ∀ H < 256,
    (H &&& 2 ≠ 0 → H ||| 252 = 252 + H % 4 ∧ 2 ≤ H % 4) ∧
    (H &&& 2 = 0 → H % 4 < 2) ∧ H &&& 3 = H % 4 ∧ (H &&& 252 = 0 ↔ H < 4) := by
  decide

theorem codec_bits : ∀ mode ∈ [0x00, 0x01, 0x02, 0x03], ∀ sens ∈ [0x00, 0x04, 0x08],
    ∀ flags ∈ [0x00, 0x10, 0x20, 0x30, 0x40, 0x50, 0x60, 0x70],
    (mode ||| sens ||| flags) &&& 0x03 = mode ∧ (mode ||| sens ||| flags) &&& 0x0C = sens := by
  decide

/-! ## `Motion::write` -/

namespace Motion

variable {σ : Type}

/-- The calls of one `Motion::write` are appended to the log. -/
theorem write_log (W : TwoWire σ) (address : Nat) (buffer : List Nat) (size : Nat) (b : Bus σ) :
    ∃ t ∈ writeCalls address buffer size, (write W address buffer size b).2.log = b.log ++ t := by
  unfold write
  simp only [writeCalls, List.mem_cons, List.mem_singleton]
  split_ifs
  · exact ⟨_, Or.inl rfl, by simp [Wire.write, Wire.beginTransmission]⟩
  · exact ⟨_, Or.inr (Or.inl rfl), by simp [Wire.write, Wire.beginTransmission, Wire.writeBuffer]⟩
  · exact ⟨_, Or.inr (Or.inr (Or.inl rfl)),
      by simp [Wire.write, Wire.beginTransmission, Wire.writeBuffer, Wire.endTransmission]⟩
  · exact ⟨_, Or.inr (Or.inr (Or.inl rfl)),
      by simp [Wire.write, Wire.beginTransmission, Wire.writeBuffer, Wire.endTransmission]⟩

theorem writeCalls_one_begin (address : Nat) (buffer : List Nat) (size : Nat) (t : List Call)
    (h : t ∈ writeCalls address buffer size) : t.countP Call.isBegin = 1 := by
  simp only [writeCalls, List.mem_cons, List.mem_singleton] at h
  rcases h with h | h | h | h
  · subst h; rfl
  · subst h; rfl
  · subst h; rfl
  · exact absurd h (List.not_mem_nil _)

/-- The three ways a `Motion::write` fails, and the code it then returns: the
address byte is not taken, the payload count kept in a `uint8_t` is not `size`,
or the status of the end of the transmission is not zero. -/
theorem write_result (W : TwoWire σ) (address : Nat) (buffer : List Nat) (size : Nat)
    (b : Bus σ) :
    let a := Wire.write W address (Wire.beginTransmission W ACCELEROMETER b)
    let p := Wire.writeBuffer W buffer size a.2
    let e := Wire.endTransmission W true p.2
    (a.1 % 256 ≠ 1 → write W address buffer size b = (NOWRITE, a.2)) ∧
    (a.1 % 256 = 1 → p.1 % 256 ≠ size → write W address buffer size b = (NOWRITE, p.2)) ∧
    (a.1 % 256 = 1 → p.1 % 256 = size → write W address buffer size b = (e.1 % 256, e.2)) := by
  intro a p e
  refine ⟨fun h => ?_, fun h1 h2 => ?_, fun h1 h2 => ?_⟩
  · unfold write; simp only []; rw [if_pos h]
  · unfold write; simp only []; rw [if_neg (not_not.mpr h1), if_pos h2]
  · unfold write; simp only []; rw [if_neg (not_not.mpr h1), if_neg (not_not.mpr h2)]
    split_ifs with h3
    · rfl
    · have h4 : e.1 % 256 = SUCCESS := not_not.mp h3
      show (SUCCESS, e.2) = (e.1 % 256, e.2)
      rw [h4]

theorem write_fails_iff (W : TwoWire σ) (address : Nat) (buffer : List Nat) (size : Nat)
    (b : Bus σ) :
    let a := Wire.write W address (Wire.beginTransmission W ACCELEROMETER b)
    let p := Wire.writeBuffer W buffer size a.2
    let e := Wire.endTransmission W true p.2
    (write W address buffer size b).1 ≠ SUCCESS ↔
      a.1 % 256 ≠ 1 ∨ p.1 % 256 ≠ size ∨ e.1 % 256 ≠ 0 := by
  intro a p e
  obtain ⟨h1, h2, h3⟩ := write_result W address buffer size b
  by_cases ha : a.1 % 256 = 1
  · by_cases hp : p.1 % 256 = size
    · rw [h3 ha hp]
      constructor
      · intro h; exact Or.inr (Or.inr h)
      · rintro (h | h | h)
        · exact absurd ha h
        · exact absurd hp h
        · exact h
    · rw [h2 ha hp]
      exact ⟨fun _ => Or.inr (Or.inl hp), fun _ => by simp⟩
  · rw [h1 ha]
    exact ⟨fun _ => Or.inl ha, fun _ => by simp⟩

/-! ## `Motion::setMode`, `Motion::getMode`, `Motion::getSensitivity` -/

/-- C1: when the write to the mode-control register fails, `setMode` returns the
non-zero code of that write and leaves the cached mode and sensitivity as they
were, so `getMode` and `getSensitivity` answer as before the call. -/
theorem setMode_failure_keeps_cache (W : TwoWire σ) (mask : Nat) (self : Motion) (b : Bus σ)
    (h : (write W MODE_CONTROL [mask] 1 b).1 ≠ SUCCESS) :
    (setMode W mask self b).1 = (write W MODE_CONTROL [mask] 1 b).1 ∧
    (setMode W mask self b).1 ≠ SUCCESS ∧
    (setMode W mask self b).2.1 = self ∧
    getMode (setMode W mask self b).2.1 = getMode self ∧
    getSensitivity (setMode W mask self b).2.1 = getSensitivity self := by
  have e : setMode W mask self b
      = ((write W MODE_CONTROL [mask] 1 b).1, self, (write W MODE_CONTROL [mask] 1 b).2) := by
    unfold setMode; simp only []; rw [if_pos h]
  rw [e]
  exact ⟨rfl, h, rfl, rfl, rfl⟩

/-- An instance of C1: a bus that does not take the address byte, mask 0x05, cached
mode 0x02 and sensitivity 0x08. -/
theorem setMode_failure_keeps_cache_witness :
    (write scripted MODE_CONTROL [0x05] 1 rejecting).1 ≠ SUCCESS ∧
    ((setMode scripted 0x05 ⟨0x02, 0x08⟩ rejecting).1
        = (write scripted MODE_CONTROL [0x05] 1 rejecting).1 ∧
      (setMode scripted 0x05 ⟨0x02, 0x08⟩ rejecting).1 ≠ SUCCESS ∧
      (setMode scripted 0x05 ⟨0x02, 0x08⟩ rejecting).2.1 = ⟨0x02, 0x08⟩ ∧
      getMode (setMode scripted 0x05 ⟨0x02, 0x08⟩ rejecting).2.1 = getMode ⟨0x02, 0x08⟩ ∧
      getSensitivity (setMode scripted 0x05 ⟨0x02, 0x08⟩ rejecting).2.1
        = getSensitivity ⟨0x02, 0x08⟩) :=
  ⟨by decide, setMode_failure_keeps_cache scripted 0x05 ⟨0x02, 0x08⟩ rejecting (by decide)⟩

theorem setMode_success (W : TwoWire σ) (mask : Nat) (self : Motion) (b : Bus σ)
    (h : (write W MODE_CONTROL [mask] 1 b).1 = SUCCESS) :
    setMode W mask self b
      = (SUCCESS, { mode := mask &&& 0x03, sensitivity := mask &&& 0x0C },
          (write W MODE_CONTROL [mask] 1 b).2) := by
  unfold setMode; simp only []; rw [if_neg (not_not.mpr h)]

/-- C2: for a mode in 0x00..0x03, a sensitivity among 0x00, 0x04, 0x08 and any
combination of the flag bits 0x10, 0x20, 0x40, when the bus accepts the write,
`setMode (mode | sensitivity | flags)` returns SUCCESS, `getMode` is the mode, the cached
sensitivity is the sensitivity and `getSensitivity` is its scale byte
(0x00 gives 0x10, 0x04 gives 0x40, 0x08 gives 0x20). -/
theorem setMode_round_trip (W : TwoWire σ) (self : Motion) (b : Bus σ) (mode sens flags : Nat)
    (hm : mode ∈ [0x00, 0x01, 0x02, 0x03]) (hs : sens ∈ [0x00, 0x04, 0x08])
    (hf : flags ∈ [0x00, 0x10, 0x20, 0x30, 0x40, 0x50, 0x60, 0x70])
    (hw : (write W MODE_CONTROL [mode ||| sens ||| flags] 1 b).1 = SUCCESS) :
    (setMode W (mode ||| sens ||| flags) self b).1 = SUCCESS ∧
    getMode (setMode W (mode ||| sens ||| flags) self b).2.1 = mode ∧
    (setMode W (mode ||| sens ||| flags) self b).2.1.sensitivity = sens ∧
    getSensitivity (setMode W (mode ||| sens ||| flags) self b).2.1 = scaleByte sens ∧
    (sens = 0x00 → getSensitivity (setMode W (mode ||| sens ||| flags) self b).2.1 = 0x10) ∧
    (sens = 0x04 → getSensitivity (setMode W (mode ||| sens ||| flags) self b).2.1 = 0x40) ∧
    (sens = 0x08 → getSensitivity (setMode W (mode ||| sens ||| flags) self b).2.1 = 0x20) := by
  obtain ⟨h3, h12⟩ := codec_bits mode hm sens hs flags hf
  rw [setMode_success W _ self b hw]
  have hg : getSensitivity
      ⟨(mode ||| sens ||| flags) &&& 0x03, (mode ||| sens ||| flags) &&& 0x0C⟩ = scaleByte sens := by
    rw [h12]; rfl
  refine ⟨rfl, h3, h12, hg, ?_, ?_, ?_⟩
  · intro h; rw [show getSensitivity _ = scaleByte sens from hg, h]; rfl
  · intro h; rw [show getSensitivity _ = scaleByte sens from hg, h]; rfl
  · intro h; rw [show getSensitivity _ = scaleByte sens from hg, h]; rfl

/-- An instance of C2: mask 0x05 on an accepting bus gives mode 0x01, sensitivity 0x04
and scale byte 0x40. -/
theorem setMode_round_trip_witness :
    (0x01 ∈ [0x00, 0x01, 0x02, 0x03] ∧ 0x04 ∈ [0x00, 0x04, 0x08] ∧
      0x00 ∈ [0x00, 0x10, 0x20, 0x30, 0x40, 0x50, 0x60, 0x70] ∧
      (write scripted MODE_CONTROL [0x05] 1 (accepting [])).1 = SUCCESS) ∧
    (setMode scripted 0x05 ⟨0x03, 0x08⟩ (accepting [])).1 = SUCCESS ∧
    getMode (setMode scripted 0x05 ⟨0x03, 0x08⟩ (accepting [])).2.1 = 0x01 ∧
    (setMode scripted 0x05 ⟨0x03, 0x08⟩ (accepting [])).2.1.sensitivity = 0x04 ∧
    getSensitivity (setMode scripted 0x05 ⟨0x03, 0x08⟩ (accepting [])).2.1 = 0x40 :=
  ⟨⟨by decide, by decide, by decide, by decide⟩,
    (setMode_round_trip scripted ⟨0x03, 0x08⟩ (accepting []) 0x01 0x04 0x00
      (by decide) (by decide) (by decide) (by decide)).1,
    (setMode_round_trip scripted ⟨0x03, 0x08⟩ (accepting []) 0x01 0x04 0x00
      (by decide) (by decide) (by decide) (by decide)).2.1,
    (setMode_round_trip scripted ⟨0x03, 0x08⟩ (accepting []) 0x01 0x04 0x00
      (by decide) (by decide) (by decide) (by decide)).2.2.1,
    (setMode_round_trip scripted ⟨0x03, 0x08⟩ (accepting []) 0x01 0x04 0x00
      (by decide) (by decide) (by decide) (by decide)).2.2.2.1⟩

/-- C9, as the code has it: after a successful `setMode mask` the cached sensitivity
is `mask & 0x0C`; `getSensitivity` answers 0x10, 0x40, 0x20 for the fields 0x00, 0x04,
0x08, hence one of these three whenever bits 2 and 3 of the mask are not both set,
and it answers the value 0x01 of its last branch exactly when both are set. -/
theorem getSensitivity_after_setMode (W : TwoWire σ) (mask : Nat) (self : Motion) (b : Bus σ)
    (hw : (write W MODE_CONTROL [mask] 1 b).1 = SUCCESS) :
    (setMode W mask self b).2.1.sensitivity = mask &&& 0x0C ∧
    (mask &&& 0x0C = GS_8G_MODE → getSensitivity (setMode W mask self b).2.1 = 0x10) ∧
    (mask &&& 0x0C = GS_2G_MODE → getSensitivity (setMode W mask self b).2.1 = 0x40) ∧
    (mask &&& 0x0C = GS_4G_MODE → getSensitivity (setMode W mask self b).2.1 = 0x20) ∧
    (mask &&& 0x0C ≠ 0x0C →
      getSensitivity (setMode W mask self b).2.1 ∈ [0x10, 0x40, 0x20]) ∧
    (getSensitivity (setMode W mask self b).2.1 = 0x01 ↔ mask &&& 0x0C = 0x0C) := by
  rw [setMode_success W mask self b hw]
  show (mask &&& 0x0C = mask &&& 0x0C) ∧ _
  simp only [getSensitivity]
  rcases sensitivity_field_cases mask with h | h | h | h <;> rw [h] <;> simp

/-- An instance of the amended C9: mask 0x0D on an accepting bus. -/
theorem getSensitivity_after_setMode_witness :
    (write scripted MODE_CONTROL [0x0D] 1 (accepting [])).1 = SUCCESS ∧
    ((setMode scripted 0x0D ⟨0, 0⟩ (accepting [])).2.1.sensitivity = 0x0D &&& 0x0C ∧
    (0x0D &&& 0x0C = GS_8G_MODE →
      getSensitivity (setMode scripted 0x0D ⟨0, 0⟩ (accepting [])).2.1 = 0x10) ∧
    (0x0D &&& 0x0C = GS_2G_MODE →
      getSensitivity (setMode scripted 0x0D ⟨0, 0⟩ (accepting [])).2.1 = 0x40) ∧
    (0x0D &&& 0x0C = GS_4G_MODE →
      getSensitivity (setMode scripted 0x0D ⟨0, 0⟩ (accepting [])).2.1 = 0x20) ∧
    (0x0D &&& 0x0C ≠ 0x0C →
      getSensitivity (setMode scripted 0x0D ⟨0, 0⟩ (accepting [])).2.1 ∈ [0x10, 0x40, 0x20]) ∧
    (getSensitivity (setMode scripted 0x0D ⟨0, 0⟩ (accepting [])).2.1 = 0x01 ↔
      0x0D &&& 0x0C = 0x0C)) :=
  ⟨by decide, getSensitivity_after_setMode scripted 0x0D ⟨0, 0⟩ (accepting []) (by decide)⟩

/-- C9 fails as stated: the mask 0x0C is written with success, the cached sensitivity
is then 0x0C and `getSensitivity` answers 0x01, none of 0x10, 0x40, 0x20. -/
theorem getSensitivity_fallback_reached :
    (setMode scripted 0x0C ⟨0, 0⟩ (accepting [])).1 = SUCCESS ∧
    (setMode scripted 0x0C ⟨0, 0⟩ (accepting [])).2.1.sensitivity = 0x0C ∧
    getSensitivity (setMode scripted 0x0C ⟨0, 0⟩ (accepting [])).2.1 = 0x01 ∧
    getSensitivity (setMode scripted 0x0C ⟨0, 0⟩ (accepting [])).2.1 ∉ [0x10, 0x40, 0x20] := by
  decide

/-! ## `Motion::clearInterruptLatch` -/

/-- A successful write has made its four calls. -/
theorem write_log_success (W : TwoWire σ) (address : Nat) (buffer : List Nat) (size : Nat)
    (b : Bus σ) (h : (write W address buffer size b).1 = SUCCESS) :
    (write W address buffer size b).2.log
      = b.log ++ [Call.beginTransmission ACCELEROMETER, Call.write address,
          Call.writeBuffer buffer size, Call.endTransmission true] := by
  obtain ⟨h1, h2, h3⟩ := write_result W address buffer size b
  by_cases ha : (Wire.write W address (Wire.beginTransmission W ACCELEROMETER b)).1 % 256 = 1
  · by_cases hp : (Wire.writeBuffer W buffer size
        (Wire.write W address (Wire.beginTransmission W ACCELEROMETER b)).2).1 % 256 = size
    · rw [h3 ha hp]
      simp [Wire.write, Wire.beginTransmission, Wire.writeBuffer, Wire.endTransmission]
    · rw [h2 ha hp] at h
      exact absurd h (by simp)
  · rw [h1 ha] at h
    exact absurd h (by simp)

/-- C4: when the first write of `clearInterruptLatch` fails, the function returns
the code of that write at once, and the bus sees the calls of that one write
only: one transmission is begun, not two. -/
theorem clearInterruptLatch_first_failure (W : TwoWire σ) (mem : Nat → Nat) (b : Bus σ)
    (h : (write W INTRESET [mem CLEAR] 1 b).1 ≠ SUCCESS) :
    clearInterruptLatch W mem b = write W INTRESET [mem CLEAR] 1 b ∧
    (clearInterruptLatch W mem b).1 ≠ SUCCESS ∧
    ∃ t ∈ writeCalls INTRESET [mem CLEAR] 1,
      (clearInterruptLatch W mem b).2.log = b.log ++ t ∧ t.countP Call.isBegin = 1 := by
  have e : clearInterruptLatch W mem b = write W INTRESET [mem CLEAR] 1 b := by
    unfold clearInterruptLatch; simp only []; rw [if_pos h]
  rw [e]
  obtain ⟨t, ht, hl⟩ := write_log W INTRESET [mem CLEAR] 1 b
  exact ⟨rfl, h, t, ht, hl, writeCalls_one_begin _ _ _ t ht⟩

/-- An instance of C4: a bus that does not take the address byte. -/
theorem clearInterruptLatch_first_failure_witness :
    (write scripted INTRESET [sampleMemory CLEAR] 1 rejecting).1 ≠ SUCCESS ∧
    (clearInterruptLatch scripted sampleMemory rejecting
        = write scripted INTRESET [sampleMemory CLEAR] 1 rejecting ∧
      (clearInterruptLatch scripted sampleMemory rejecting).1 ≠ SUCCESS ∧
      ∃ t ∈ writeCalls INTRESET [sampleMemory CLEAR] 1,
        (clearInterruptLatch scripted sampleMemory rejecting).2.log = rejecting.log ++ t ∧
          t.countP Call.isBegin = 1) :=
  ⟨by decide, clearInterruptLatch_first_failure scripted sampleMemory rejecting (by decide)⟩

/-- What `clearInterruptLatch` sends when both writes succeed: the payload of the
first write is the byte of data memory at address `CLEAR`, that of the second
the byte at address `ENABLE`. -/
theorem clearInterruptLatch_payloads (W : TwoWire σ) (mem : Nat → Nat) (b : Bus σ)
    (h : (clearInterruptLatch W mem b).1 = SUCCESS) :
    (clearInterruptLatch W mem b).2.log
      = b.log ++ [Call.beginTransmission ACCELEROMETER, Call.write INTRESET,
          Call.writeBuffer [mem CLEAR] 1, Call.endTransmission true,
          Call.beginTransmission ACCELEROMETER, Call.write INTRESET,
          Call.writeBuffer [mem ENABLE] 1, Call.endTransmission true] := by
  by_cases h1 : (write W INTRESET [mem CLEAR] 1 b).1 = SUCCESS
  · by_cases h2 : (write W INTRESET [mem ENABLE] 1 (write W INTRESET [mem CLEAR] 1 b).2).1
        = SUCCESS
    · have e : (clearInterruptLatch W mem b).2
          = (write W INTRESET [mem ENABLE] 1 (write W INTRESET [mem CLEAR] 1 b).2).2 := by
        unfold clearInterruptLatch; simp only []
        rw [if_neg (not_not.mpr h1), if_neg (not_not.mpr h2)]
      rw [e, write_log_success W _ _ _ _ h2, write_log_success W _ _ _ _ h1]
      simp
    · have e : (clearInterruptLatch W mem b).1
          = (write W INTRESET [mem ENABLE] 1 (write W INTRESET [mem CLEAR] 1 b).2).1 := by
        unfold clearInterruptLatch; simp only []
        rw [if_neg (not_not.mpr h1), if_pos h2]
      exact absurd (e ▸ h) h2
  · have e : (clearInterruptLatch W mem b).1 = (write W INTRESET [mem CLEAR] 1 b).1 := by
      unfold clearInterruptLatch; simp only []; rw [if_pos h1]
    exact absurd (e ▸ h) h1

/-- C5 at a data memory holding 0x00 at address 3 and 0xFF elsewhere, on a bus that
accepts every byte: `clearInterruptLatch` returns SUCCESS after two writes to register
0x17 whose payload bytes are 0x00 and 0xFF, the bytes of memory at the addresses 3
and 0, not the values 0x03 and 0x00. -/
theorem clearInterruptLatch_sends_memory_bytes :
    (clearInterruptLatch scripted sampleMemory (accepting [])).1 = SUCCESS ∧
    (clearInterruptLatch scripted sampleMemory (accepting [])).2.log
      = [Call.beginTransmission 0x1D, Call.write 0x17, Call.writeBuffer [0x00] 1,
          Call.endTransmission true,
          Call.beginTransmission 0x1D, Call.write 0x17, Call.writeBuffer [0xFF] 1,
          Call.endTransmission true] := by
  decide

/-! ## The loop of `Motion::read` -/

theorem drain_bounds (W : TwoWire σ) (size : Nat) :
    ∀ (fuel i : Nat) (buffer : List Nat) (b : Bus σ),
      i ≤ (drain W size fuel i buffer b).1 ∧
      (i ≤ size → (drain W size fuel i buffer b).1 ≤ size) := by
  intro fuel
  induction fuel with
  | zero => intro i buffer b; simp [drain]
  | succ fuel ih =>
    intro i buffer b
    unfold drain
    simp only []
    split_ifs with h
    · have := ih (i + 1) (buffer.set i ((Wire.read W (Wire.available W b).2).1 % 256).toNat)
        (Wire.read W (Wire.available W b).2).2
      omega
    · simp

theorem drain_length (W : TwoWire σ) (size : Nat) :
    ∀ (fuel i : Nat) (buffer : List Nat) (b : Bus σ),
      (drain W size fuel i buffer b).2.1.length = buffer.length := by
  intro fuel
  induction fuel with
  | zero => intro i buffer b; simp [drain]
  | succ fuel ih =>
    intro i buffer b
    unfold drain
    simp only []
    split_ifs with h
    · rw [ih, List.length_set]
    · rfl

/-- The loop leaves the buffer as it was from the place it stopped at. -/
theorem drain_drop (W : TwoWire σ) (size : Nat) :
    ∀ (fuel i : Nat) (buffer : List Nat) (b : Bus σ),
      (drain W size fuel i buffer b).2.1.drop (drain W size fuel i buffer b).1
        = buffer.drop (drain W size fuel i buffer b).1 := by
  intro fuel
  induction fuel with
  | zero => intro i buffer b; simp [drain]
  | succ fuel ih =>
    intro i buffer b
    unfold drain
    simp only []
    split_ifs with h
    · rw [ih]
      apply List.drop_set_of_lt
      have := (drain_bounds W size fuel (i + 1)
        (buffer.set i ((Wire.read W (Wire.available W b).2).1 % 256).toNat)
        (Wire.read W (Wire.available W b).2).2).1
      omega
    · rfl

theorem drain_log (W : TwoWire σ) (size : Nat) :
    ∀ (fuel i : Nat) (buffer : List Nat) (b : Bus σ),
      ∃ t, (drain W size fuel i buffer b).2.2.log = b.log ++ t ∧
        ∀ c ∈ t, c = Call.available ∨ c = Call.read := by
  intro fuel
  induction fuel with
  | zero => intro i buffer b; exact ⟨[], by simp [drain], by simp⟩
  | succ fuel ih =>
    intro i buffer b
    unfold drain
    simp only []
    split_ifs with h
    · obtain ⟨t, ht, hc⟩ := ih (i + 1)
        (buffer.set i ((Wire.read W (Wire.available W b).2).1 % 256).toNat)
        (Wire.read W (Wire.available W b).2).2
      refine ⟨Call.available :: Call.read :: t, ?_, ?_⟩
      · rw [ht]; simp [Wire.read, Wire.available]
      · intro c hc2
        simp only [List.mem_cons] at hc2
        rcases hc2 with h1 | h1 | h1
        · exact Or.inl h1
        · exact Or.inr h1
        · exact hc c h1
    · exact ⟨[Call.available], by simp [Wire.available], by simp⟩

/-- One more test than `size + 1 - i` of the loop condition changes nothing. -/
theorem drain_fuel (W : TwoWire σ) (size : Nat) :
    ∀ (fuel i : Nat) (buffer : List Nat) (b : Bus σ), i ≤ size → size + 1 ≤ fuel + i →
      drain W size (fuel + 1) i buffer b = drain W size fuel i buffer b := by
  intro fuel
  induction fuel with
  | zero => intro i buffer b h1 h2; omega
  | succ fuel ih =>
    intro i buffer b h1 h2
    conv_lhs => rw [drain]
    conv_rhs => rw [drain]
    simp only []
    split_ifs with h
    · exact ih _ _ _ (by omega) (by omega)
    · rfl

theorem drain_bytes (W : TwoWire σ) (size : Nat) :
    ∀ (fuel i : Nat) (buffer : List Nat) (b : Bus σ), (∀ j < i, buffer.getD j 0 < 256) →
      ∀ j < (drain W size fuel i buffer b).1, (drain W size fuel i buffer b).2.1.getD j 0 < 256 := by
  intro fuel
  induction fuel with
  | zero => intro i buffer b hb; simpa [drain] using hb
  | succ fuel ih =>
    intro i buffer b hb
    unfold drain
    simp only []
    split_ifs with h
    · apply ih
      intro j hj
      rw [List.getD_eq_getElem?_getD, List.getElem?_set]
      by_cases e : i = j
      · rw [if_pos e]
        split_ifs
        · show (((Wire.read W (Wire.available W b).2).1 % 256).toNat) < 256
          have : (Wire.read W (Wire.available W b).2).1 % 256 < 256 :=
            Int.emod_lt_of_pos _ (by decide)
          omega
        · simp
      · rw [if_neg e, ← List.getD_eq_getElem?_getD]
        exact hb j (by omega)
    · exact hb

/-! ## `Motion::read` -/

/-- The five ways through `Motion::read`, with the code returned and the buffer
handed back on each. -/
theorem read_result (W : TwoWire σ) (address : Nat) (buffer : List Nat) (size : Nat)
    (b : Bus σ) :
    let a := Wire.write W address (Wire.beginTransmission W ACCELEROMETER b)
    let e := Wire.endTransmission W false a.2
    let g := Wire.requestFrom W ACCELEROMETER size e.2
    let d := drain W size (size + 1) 0 buffer g.2
    (a.1 % 256 ≠ 1 → read W address buffer size b = (NOWRITE, buffer, a.2)) ∧
    (a.1 % 256 = 1 → e.1 % 256 ≠ 0 → read W address buffer size b = (e.1 % 256, buffer, e.2)) ∧
    (a.1 % 256 = 1 → e.1 % 256 = 0 → g.1 % 256 ≠ size →
      read W address buffer size b = (BADLENGTH, buffer, g.2)) ∧
    (a.1 % 256 = 1 → e.1 % 256 = 0 → g.1 % 256 = size → d.1 ≠ size →
      read W address buffer size b = (BADLENGTH, d.2.1, d.2.2)) ∧
    (a.1 % 256 = 1 → e.1 % 256 = 0 → g.1 % 256 = size → d.1 = size →
      read W address buffer size b = (SUCCESS, d.2.1, d.2.2)) := by
  intro a e g d
  refine ⟨fun h => ?_, fun h1 h2 => ?_, fun h1 h2 h3 => ?_, fun h1 h2 h3 h4 => ?_,
    fun h1 h2 h3 h4 => ?_⟩
  · unfold read; simp only []; rw [if_pos h]
  · unfold read; simp only []; rw [if_neg (not_not.mpr h1), if_pos h2]
  · unfold read; simp only []
    rw [if_neg (not_not.mpr h1), if_neg (not_not.mpr h2), if_pos h3]
  · unfold read; simp only []
    rw [if_neg (not_not.mpr h1), if_neg (not_not.mpr h2), if_neg (not_not.mpr h3), if_pos h4]
  · unfold read; simp only []
    rw [if_neg (not_not.mpr h1), if_neg (not_not.mpr h2), if_neg (not_not.mpr h3),
      if_neg (not_not.mpr h4)]

/-- A successful read has filled the first `size` places of the buffer with
bytes. -/
theorem read_success_bytes (W : TwoWire σ) (address : Nat) (buffer : List Nat) (size : Nat)
    (b : Bus σ) (h : (read W address buffer size b).1 = SUCCESS) :
    ∀ j < size, (read W address buffer size b).2.1.getD j 0 < 256 := by
  obtain ⟨h1, h2, h3, h4, h5⟩ := read_result W address buffer size b
  by_cases ha : (Wire.write W address (Wire.beginTransmission W ACCELEROMETER b)).1 % 256 = 1
  · by_cases he : (Wire.endTransmission W false
        (Wire.write W address (Wire.beginTransmission W ACCELEROMETER b)).2).1 % 256 = 0
    · by_cases hg : (Wire.requestFrom W ACCELEROMETER size (Wire.endTransmission W false
          (Wire.write W address (Wire.beginTransmission W ACCELEROMETER b)).2).2).1 % 256 = size
      · by_cases hd : (drain W size (size + 1) 0 buffer
            (Wire.requestFrom W ACCELEROMETER size (Wire.endTransmission W false
              (Wire.write W address (Wire.beginTransmission W ACCELEROMETER b)).2).2).2).1 = size
        · rw [h5 ha he hg hd]
          intro j hj
          exact drain_bytes W size (size + 1) 0 buffer _ (by intro j hj; omega) j (by omega)
        · rw [h4 ha he hg hd] at h
          exact absurd h (by simp)
      · rw [h3 ha he hg] at h
        exact absurd h (by simp)
    · rw [h2 ha he] at h
      exact absurd h he
  · rw [h1 ha] at h
    exact absurd h (by simp)

/-- Once the address is taken and the transmission closed with status 0, a
read makes one request, for `size` bytes, and then only tests and fetches the
receive queue. -/
theorem read_requests (W : TwoWire σ) (address : Nat) (buffer : List Nat) (size : Nat)
    (b : Bus σ)
    (ha : (Wire.write W address (Wire.beginTransmission W ACCELEROMETER b)).1 % 256 = 1)
    (he : (Wire.endTransmission W false
      (Wire.write W address (Wire.beginTransmission W ACCELEROMETER b)).2).1 % 256 = 0) :
    ∃ t, (read W address buffer size b).2.2.log
        = b.log ++ [Call.beginTransmission ACCELEROMETER, Call.write address,
            Call.endTransmission false, Call.requestFrom ACCELEROMETER size] ++ t ∧
      ∀ c ∈ t, c = Call.available ∨ c = Call.read := by
  obtain ⟨-, -, h3, h4, h5⟩ := read_result W address buffer size b
  obtain ⟨t, ht, hc⟩ := drain_log W size (size + 1) 0 buffer
    (Wire.requestFrom W ACCELEROMETER size (Wire.endTransmission W false
      (Wire.write W address (Wire.beginTransmission W ACCELEROMETER b)).2).2).2
  by_cases hg : (Wire.requestFrom W ACCELEROMETER size (Wire.endTransmission W false
      (Wire.write W address (Wire.beginTransmission W ACCELEROMETER b)).2).2).1 % 256 = size
  · refine ⟨t, ?_, hc⟩
    by_cases hd : (drain W size (size + 1) 0 buffer
        (Wire.requestFrom W ACCELEROMETER size (Wire.endTransmission W false
          (Wire.write W address (Wire.beginTransmission W ACCELEROMETER b)).2).2).2).1 = size
    · rw [h5 ha he hg hd]
      show (drain W size (size + 1) 0 buffer _).2.2.log = _
      rw [ht]
      simp [Wire.write, Wire.beginTransmission, Wire.endTransmission, Wire.requestFrom]
    · rw [h4 ha he hg hd]
      show (drain W size (size + 1) 0 buffer _).2.2.log = _
      rw [ht]
      simp [Wire.write, Wire.beginTransmission, Wire.endTransmission, Wire.requestFrom]
  · refine ⟨[], ?_, by simp⟩
    rw [h3 ha he hg]
    simp [Wire.write, Wire.beginTransmission, Wire.endTransmission, Wire.requestFrom]

/-- The calls of one `Motion::read` are appended to the log, and all belong to a
read. -/
theorem read_log (W : TwoWire σ) (address : Nat) (buffer : List Nat) (size : Nat) (b : Bus σ) :
    ∃ t, (read W address buffer size b).2.2.log = b.log ++ t ∧
      ∀ c ∈ t, readPhase address size c = true := by
  obtain ⟨h1, h2, -, -, -⟩ := read_result W address buffer size b
  by_cases ha : (Wire.write W address (Wire.beginTransmission W ACCELEROMETER b)).1 % 256 = 1
  · by_cases he : (Wire.endTransmission W false
        (Wire.write W address (Wire.beginTransmission W ACCELEROMETER b)).2).1 % 256 = 0
    · obtain ⟨t, ht, hc⟩ := read_requests W address buffer size b ha he
      refine ⟨_, by rw [ht, List.append_assoc], ?_⟩
      intro c hm
      simp only [List.mem_append, List.mem_cons, List.mem_singleton, List.not_mem_nil,
        or_false] at hm
      rcases hm with (h | h | h | h) | h
      · subst h; simp [readPhase]
      · subst h; simp [readPhase]
      · subst h; simp [readPhase]
      · subst h; simp [readPhase]
      · rcases hc c h with h | h
        · subst h; simp [readPhase]
        · subst h; simp [readPhase]
    · refine ⟨[Call.beginTransmission ACCELEROMETER, Call.write address,
        Call.endTransmission false], ?_, ?_⟩
      · rw [h2 ha he]
        simp [Wire.write, Wire.beginTransmission, Wire.endTransmission]
      · intro c hm
        simp only [List.mem_cons, List.mem_singleton, List.not_mem_nil, or_false] at hm
        rcases hm with h | h | h
        · subst h; simp [readPhase]
        · subst h; simp [readPhase]
        · subst h; simp [readPhase]
  · refine ⟨[Call.beginTransmission ACCELEROMETER, Call.write address], ?_, ?_⟩
    · rw [h1 ha]
      simp [Wire.write, Wire.beginTransmission]
    · intro c hm
      simp only [List.mem_cons, List.mem_singleton, List.not_mem_nil, or_false] at hm
      rcases hm with h | h
      · subst h; simp [readPhase]
      · subst h; simp [readPhase]

/-! ## `Motion::orientation` -/

/-- A failed read makes `orientation` return its code and the outputs as they
were. -/
theorem orientation_failure (W : TwoWire σ) (xyz : accelerometer) (x y z : Int) (b : Bus σ)
    (h : (read W XL_OUT xyz.bytes 6 b).1 ≠ SUCCESS) :
    orientation W xyz x y z b
      = ((read W XL_OUT xyz.bytes 6 b).1, (x, y, z), (read W XL_OUT xyz.bytes 6 b).2.2) := by
  unfold orientation; simp only []; rw [if_pos h]

/-- C10: when the burst read of six bytes from register 0x00 fails, `orientation`
returns the code of `read` and the three outputs keep the values they had
before the call, whatever was stored in the local buffer meanwhile. -/
theorem orientation_failure_keeps_outputs (W : TwoWire σ) (xyz : accelerometer) (x y z : Int)
    (b : Bus σ) (h : (read W XL_OUT xyz.bytes 6 b).1 ≠ SUCCESS) :
    (orientation W xyz x y z b).1 = (read W XL_OUT xyz.bytes 6 b).1 ∧
    (orientation W xyz x y z b).1 ≠ SUCCESS ∧
    (orientation W xyz x y z b).2.1 = (x, y, z) ∧
    (orientation W xyz x y z b).2.2 = (read W XL_OUT xyz.bytes 6 b).2.2 := by
  rw [orientation_failure W xyz x y z b h]
  exact ⟨rfl, h, rfl, rfl⟩

/-- An instance of C10: six bytes are granted, two are drained into the local
buffer, the read returns BADLENGTH and the outputs stay (11, -12, 13). -/
theorem orientation_failure_keeps_outputs_witness :
    ((read scripted XL_OUT (accelerometer.bytes ⟨1, 2, 3, 4, 5, 6⟩) 6
        (accepting [0xAA, 0xBB])).1 ≠ SUCCESS ∧
      (read scripted XL_OUT (accelerometer.bytes ⟨1, 2, 3, 4, 5, 6⟩) 6
        (accepting [0xAA, 0xBB])).2.1 = [0xAA, 0xBB, 3, 4, 5, 6]) ∧
    ((orientation scripted ⟨1, 2, 3, 4, 5, 6⟩ 11 (-12) 13 (accepting [0xAA, 0xBB])).1
        = (read scripted XL_OUT (accelerometer.bytes ⟨1, 2, 3, 4, 5, 6⟩) 6
            (accepting [0xAA, 0xBB])).1 ∧
      (orientation scripted ⟨1, 2, 3, 4, 5, 6⟩ 11 (-12) 13 (accepting [0xAA, 0xBB])).1
        ≠ SUCCESS ∧
      (orientation scripted ⟨1, 2, 3, 4, 5, 6⟩ 11 (-12) 13 (accepting [0xAA, 0xBB])).2.1
        = (11, -12, 13) ∧
      (orientation scripted ⟨1, 2, 3, 4, 5, 6⟩ 11 (-12) 13 (accepting [0xAA, 0xBB])).2.2
        = (read scripted XL_OUT (accelerometer.bytes ⟨1, 2, 3, 4, 5, 6⟩) 6
            (accepting [0xAA, 0xBB])).2.2) :=
  ⟨⟨by decide, by decide⟩,
    orientation_failure_keeps_outputs scripted ⟨1, 2, 3, 4, 5, 6⟩ 11 (-12) 13
      (accepting [0xAA, 0xBB]) (by decide)⟩

/-- The value `orientation` gives an axis from its low and its high byte. -/
theorem orientation_success (W : TwoWire σ) (xyz : accelerometer) (x y z : Int) (b : Bus σ)
    (h : (read W XL_OUT xyz.bytes 6 b).1 = SUCCESS) :
    orientation W xyz x y z b
      = (SUCCESS,
          (toInt16 ((read W XL_OUT xyz.bytes 6 b).2.1.getD 0 0)
              (if (read W XL_OUT xyz.bytes 6 b).2.1.getD 1 0 &&& 0x02 ≠ 0
                then (read W XL_OUT xyz.bytes 6 b).2.1.getD 1 0 ||| 0xFC
                else (read W XL_OUT xyz.bytes 6 b).2.1.getD 1 0),
            toInt16 ((read W XL_OUT xyz.bytes 6 b).2.1.getD 2 0)
              (if (read W XL_OUT xyz.bytes 6 b).2.1.getD 3 0 &&& 0x02 ≠ 0
                then (read W XL_OUT xyz.bytes 6 b).2.1.getD 3 0 ||| 0xFC
                else (read W XL_OUT xyz.bytes 6 b).2.1.getD 3 0),
            toInt16 ((read W XL_OUT xyz.bytes 6 b).2.1.getD 4 0)
              (if (read W XL_OUT xyz.bytes 6 b).2.1.getD 5 0 &&& 0x02 ≠ 0
                then (read W XL_OUT xyz.bytes 6 b).2.1.getD 5 0 ||| 0xFC
                else (read W XL_OUT xyz.bytes 6 b).2.1.getD 5 0)),
          (read W XL_OUT xyz.bytes 6 b).2.2) := by
  unfold orientation
  simp only []
  rw [if_neg (not_not.mpr h)]
  simp only [accelerometer.ofBytes, accelerometer.values_x, accelerometer.values_y,
    accelerometer.values_z]
  split_ifs <;> rfl

theorem sign_extend_axis (L H : Nat) (hL : L < 256) (hH : H < 256)
    (hc : H &&& 0x02 ≠ 0 ∨ H &&& 0xFC = 0) :
    toInt16 L (if H &&& 0x02 ≠ 0 then H ||| 0xFC else H) = twosComplement10 L H := by
  obtain ⟨h1, h2, h3, h4⟩ := high_byte_bits H hH
  unfold toInt16 twosComplement10
  rw [h3]
  by_cases hs : H &&& 0x02 ≠ 0
  · obtain ⟨h5, h6⟩ := h1 hs
    rw [if_pos hs, h5]
    have hm : H % 4 < 4 := Nat.mod_lt _ (by decide)
    have e : (L + 256 * (252 + H % 4)) % 65536 = L + 256 * (252 + H % 4) :=
      Nat.mod_eq_of_lt (by omega)
    rw [e, if_neg (by omega), if_neg (by omega)]
    push_cast
    omega
  · rw [if_neg hs]
    have h7 : H < 4 := by
      rcases hc with hc | hc
      · exact absurd hc hs
      · exact h4.mp hc
    have h8 : H % 4 < 2 := h2 (not_not.mp hs)
    have h9 : H % 4 = H := Nat.mod_eq_of_lt h7
    rw [h9] at h8 ⊢
    have e : (L + 256 * H) % 65536 = L + 256 * H := Nat.mod_eq_of_lt (by omega)
    rw [e, if_pos (by omega), if_pos (by omega)]
    push_cast
    omega

/-- C3: after a successful burst of six bytes, for each axis with low byte `L` and
high byte `H`, if bit 1 of `H` is set or bits 2 to 7 of `H` are clear, the value
`orientation` returns for the axis is the two's-complement reading of the 10-bit
field `(H & 0x03) * 256 + L` (the 16-bit little-endian `int` overlaying the two
bytes). -/
theorem orientation_sign_extension (W : TwoWire σ) (xyz : accelerometer) (x y z : Int)
    (b : Bus σ) (h : (read W XL_OUT xyz.bytes 6 b).1 = SUCCESS) :
    (orientation W xyz x y z b).1 = SUCCESS ∧
    ((read W XL_OUT xyz.bytes 6 b).2.1.getD 1 0 &&& 0x02 ≠ 0 ∨ (read W XL_OUT xyz.bytes 6 b).2.1.getD 1 0 &&& 0xFC = 0 →
      (orientation W xyz x y z b).2.1.1
        = twosComplement10 ((read W XL_OUT xyz.bytes 6 b).2.1.getD 0 0) ((read W XL_OUT xyz.bytes 6 b).2.1.getD 1 0)) ∧
    ((read W XL_OUT xyz.bytes 6 b).2.1.getD 3 0 &&& 0x02 ≠ 0 ∨ (read W XL_OUT xyz.bytes 6 b).2.1.getD 3 0 &&& 0xFC = 0 →
      (orientation W xyz x y z b).2.1.2.1
        = twosComplement10 ((read W XL_OUT xyz.bytes 6 b).2.1.getD 2 0) ((read W XL_OUT xyz.bytes 6 b).2.1.getD 3 0)) ∧
    ((read W XL_OUT xyz.bytes 6 b).2.1.getD 5 0 &&& 0x02 ≠ 0 ∨ (read W XL_OUT xyz.bytes 6 b).2.1.getD 5 0 &&& 0xFC = 0 →
      (orientation W xyz x y z b).2.1.2.2
        = twosComplement10 ((read W XL_OUT xyz.bytes 6 b).2.1.getD 4 0) ((read W XL_OUT xyz.bytes 6 b).2.1.getD 5 0)) := by
  have hb := read_success_bytes W XL_OUT xyz.bytes 6 b h
  rw [orientation_success W xyz x y z b h]
  refine ⟨rfl, fun hc => ?_, fun hc => ?_, fun hc => ?_⟩
  · exact sign_extend_axis _ _ (hb 0 (by decide)) (hb 1 (by decide)) hc
  · exact sign_extend_axis _ _ (hb 2 (by decide)) (hb 3 (by decide)) hc
  · exact sign_extend_axis _ _ (hb 4 (by decide)) (hb 5 (by decide)) hc

/-- An instance of C3: the burst 00 00 00 00 40 00 gives (0, 0, 64), and the high byte
0x02 with the low byte 0x00 gives -512. -/
theorem orientation_sign_extension_witness :
    (read scripted XL_OUT (accelerometer.bytes ⟨9, 9, 9, 9, 9, 9⟩) 6 (accepting [0x00, 0x00, 0x00, 0x00, 0x40, 0x00])).1 = SUCCESS ∧
    ((orientation scripted ⟨9, 9, 9, 9, 9, 9⟩ 7 7 7 (accepting [0x00, 0x00, 0x00, 0x00, 0x40, 0x00])).1 = SUCCESS ∧
    ((read scripted XL_OUT (accelerometer.bytes ⟨9, 9, 9, 9, 9, 9⟩) 6 (accepting [0x00, 0x00, 0x00, 0x00, 0x40, 0x00])).2.1.getD 1 0 &&& 0x02 ≠ 0 ∨ (read scripted XL_OUT (accelerometer.bytes ⟨9, 9, 9, 9, 9, 9⟩) 6 (accepting [0x00, 0x00, 0x00, 0x00, 0x40, 0x00])).2.1.getD 1 0 &&& 0xFC = 0 →
      (orientation scripted ⟨9, 9, 9, 9, 9, 9⟩ 7 7 7 (accepting [0x00, 0x00, 0x00, 0x00, 0x40, 0x00])).2.1.1
        = twosComplement10 ((read scripted XL_OUT (accelerometer.bytes ⟨9, 9, 9, 9, 9, 9⟩) 6 (accepting [0x00, 0x00, 0x00, 0x00, 0x40, 0x00])).2.1.getD 0 0) ((read scripted XL_OUT (accelerometer.bytes ⟨9, 9, 9, 9, 9, 9⟩) 6 (accepting [0x00, 0x00, 0x00, 0x00, 0x40, 0x00])).2.1.getD 1 0)) ∧
    ((read scripted XL_OUT (accelerometer.bytes ⟨9, 9, 9, 9, 9, 9⟩) 6 (accepting [0x00, 0x00, 0x00, 0x00, 0x40, 0x00])).2.1.getD 3 0 &&& 0x02 ≠ 0 ∨ (read scripted XL_OUT (accelerometer.bytes ⟨9, 9, 9, 9, 9, 9⟩) 6 (accepting [0x00, 0x00, 0x00, 0x00, 0x40, 0x00])).2.1.getD 3 0 &&& 0xFC = 0 →
      (orientation scripted ⟨9, 9, 9, 9, 9, 9⟩ 7 7 7 (accepting [0x00, 0x00, 0x00, 0x00, 0x40, 0x00])).2.1.2.1
        = twosComplement10 ((read scripted XL_OUT (accelerometer.bytes ⟨9, 9, 9, 9, 9, 9⟩) 6 (accepting [0x00, 0x00, 0x00, 0x00, 0x40, 0x00])).2.1.getD 2 0) ((read scripted XL_OUT (accelerometer.bytes ⟨9, 9, 9, 9, 9, 9⟩) 6 (accepting [0x00, 0x00, 0x00, 0x00, 0x40, 0x00])).2.1.getD 3 0)) ∧
    ((read scripted XL_OUT (accelerometer.bytes ⟨9, 9, 9, 9, 9, 9⟩) 6 (accepting [0x00, 0x00, 0x00, 0x00, 0x40, 0x00])).2.1.getD 5 0 &&& 0x02 ≠ 0 ∨ (read scripted XL_OUT (accelerometer.bytes ⟨9, 9, 9, 9, 9, 9⟩) 6 (accepting [0x00, 0x00, 0x00, 0x00, 0x40, 0x00])).2.1.getD 5 0 &&& 0xFC = 0 →
      (orientation scripted ⟨9, 9, 9, 9, 9, 9⟩ 7 7 7 (accepting [0x00, 0x00, 0x00, 0x00, 0x40, 0x00])).2.1.2.2
        = twosComplement10 ((read scripted XL_OUT (accelerometer.bytes ⟨9, 9, 9, 9, 9, 9⟩) 6 (accepting [0x00, 0x00, 0x00, 0x00, 0x40, 0x00])).2.1.getD 4 0) ((read scripted XL_OUT (accelerometer.bytes ⟨9, 9, 9, 9, 9, 9⟩) 6 (accepting [0x00, 0x00, 0x00, 0x00, 0x40, 0x00])).2.1.getD 5 0))) ∧
    (orientation scripted ⟨9, 9, 9, 9, 9, 9⟩ 7 7 7 (accepting [0x00, 0x00, 0x00, 0x00, 0x40, 0x00])).2.1 = (0, 0, 64) ∧
    (orientation scripted ⟨9, 9, 9, 9, 9, 9⟩ 7 7 7
      (accepting [0x00, 0x02, 0x00, 0x00, 0x00, 0x00])).2.1 = (-512, 0, 0) ∧
    twosComplement10 0x00 0x02 = -512 :=
  ⟨by decide,
    orientation_sign_extension scripted ⟨9, 9, 9, 9, 9, 9⟩ 7 7 7
      (accepting [0x00, 0x00, 0x00, 0x00, 0x40, 0x00]) (by decide),
    by decide, by decide, by decide⟩

/-! ## Byte counts of `Motion::read` and `Motion::write` -/

/-- The loop leaves the places below its starting index as they were. -/
theorem drain_below (W : TwoWire σ) (size : Nat) :
    ∀ (fuel i : Nat) (buffer : List Nat) (b : Bus σ) (j : Nat), j < i →
      (drain W size fuel i buffer b).2.1[j]? = buffer[j]? := by
  intro fuel
  induction fuel with
  | zero => intro i buffer b j _; simp [drain]
  | succ fuel ih =>
    intro i buffer b j hj
    unfold drain
    simp only []
    split_ifs with h
    · rw [ih (i + 1) _ _ j (by omega), List.getElem?_set, if_neg (by omega)]
    · rfl

/-- The loop stores the bytes it fetches, in order, from its starting index on:
place `j` holds the byte fetched in turn `j - i`, kept in a `uint8_t`. -/
theorem drain_stored (W : TwoWire σ) (size : Nat) :
    ∀ (fuel i : Nat) (buffer : List Nat) (b : Bus σ) (j : Nat), i ≤ j →
      j < (drain W size fuel i buffer b).1 → j < buffer.length →
      (drain W size fuel i buffer b).2.1[j]?
        = some (((Wire.fetch W ((fun s => (Wire.fetch W s).2)^[j - i] b)).1 % 256).toNat) := by
  intro fuel
  induction fuel with
  | zero =>
    intro i buffer b j h1 h2 _
    simp only [drain] at h2
    omega
  | succ fuel ih =>
    intro i buffer b j
    unfold drain
    simp only []
    split_ifs with h
    · intro h1 h2 h3
      by_cases e : j = i
      · subst e
        rw [drain_below W size fuel (j + 1) _ _ j (by omega), List.getElem?_set, if_pos rfl,
          if_pos h3, Nat.sub_self]
        rfl
      · have h4 := ih (i + 1) (buffer.set i ((Wire.read W (Wire.available W b).2).1 % 256).toNat)
          (Wire.read W (Wire.available W b).2).2 j (by omega) h2
          (by rw [List.length_set]; exact h3)
        rw [h4]
        have e2 : j - i = (j - (i + 1)) + 1 := by omega
        rw [e2, Function.iterate_succ_apply]
        rfl
    · intro h1 h2 _
      simp only [] at h2
      omega

theorem drain_fuel_enough (W : TwoWire σ) (size : Nat) (buffer : List Nat) (b : Bus σ) :
    ∀ k, drain W size (size + 1 + k) 0 buffer b = drain W size (size + 1) 0 buffer b := by
  intro k
  induction k with
  | zero => rfl
  | succ k ih =>
    rw [← ih]
    exact drain_fuel W size (size + 1 + k) 0 buffer b (Nat.zero_le _) (by omega)

/-- C8, as the code has it.  `write` returns NOWRITE whenever the payload count,
as the code keeps it in a `uint8_t` (modulo 256: the count itself when it is below
256 or at most `N`), differs from `N`.  `read` makes one request, for exactly `N`
bytes, and returns BADLENGTH whenever the granted count (kept the same way) differs
from `N` or fewer than `N` bytes are drained.  A read that fails before the loop
hands the buffer back unmodified; one that fails after draining `k < N` bytes has
stored them in the first `k` places of the buffer (place `j` holds the byte of the
`j`-th fetch, kept in a `uint8_t`) and left the others as they were.  The loop never
needs more than `N + 1` tests of its condition. -/
theorem transfer_count_mismatch (W : TwoWire σ) (address : Nat) (buffer : List Nat) (N : Nat)
    (b : Bus σ) :
    let a := Wire.write W address (Wire.beginTransmission W ACCELEROMETER b)
    let p := Wire.writeBuffer W buffer N a.2
    let e := Wire.endTransmission W false a.2
    let g := Wire.requestFrom W ACCELEROMETER N e.2
    let d := drain W N (N + 1) 0 buffer g.2
    (p.1 % 256 ≠ N → (write W address buffer N b).1 = NOWRITE) ∧
    (p.1 ≠ N → p.1 < 256 ∨ p.1 ≤ N → (write W address buffer N b).1 = NOWRITE) ∧
    (a.1 % 256 = 1 → e.1 % 256 = 0 →
      ∃ t, (read W address buffer N b).2.2.log
          = b.log ++ [Call.beginTransmission ACCELEROMETER, Call.write address,
              Call.endTransmission false, Call.requestFrom ACCELEROMETER N] ++ t ∧
        ∀ c ∈ t, c = Call.available ∨ c = Call.read) ∧
    (a.1 % 256 = 1 → e.1 % 256 = 0 → g.1 % 256 ≠ N →
      read W address buffer N b = (BADLENGTH, buffer, g.2)) ∧
    (a.1 % 256 = 1 → e.1 % 256 = 0 → g.1 ≠ N → g.1 < 256 →
      read W address buffer N b = (BADLENGTH, buffer, g.2)) ∧
    (a.1 % 256 = 1 → e.1 % 256 = 0 → g.1 % 256 = N → d.1 ≠ N →
      (read W address buffer N b).1 = BADLENGTH ∧ d.1 < N ∧
      (read W address buffer N b).2.1.length = buffer.length ∧
      (read W address buffer N b).2.1.drop d.1 = buffer.drop d.1 ∧
      (∀ j, j < d.1 → j < buffer.length →
        (read W address buffer N b).2.1[j]?
          = some (((Wire.fetch W ((fun s => (Wire.fetch W s).2)^[j] g.2)).1 % 256).toNat))) ∧
    (∀ k, drain W N (N + 1 + k) 0 buffer g.2 = d) ∧
    (a.1 % 256 ≠ 1 → read W address buffer N b = (NOWRITE, buffer, a.2)) ∧
    (a.1 % 256 = 1 → e.1 % 256 ≠ 0 → read W address buffer N b = (e.1 % 256, buffer, e.2)) := by
  intro a p e g d
  obtain ⟨w1, w2, -⟩ := write_result W address buffer N b
  obtain ⟨r1, r2, r3, r4, -⟩ := read_result W address buffer N b
  have hw : p.1 % 256 ≠ N → (write W address buffer N b).1 = NOWRITE := by
    intro hp
    by_cases ha : a.1 % 256 = 1
    · rw [w2 ha hp]
    · rw [w1 ha]
  refine ⟨hw, ?_, ?_, r3, ?_, ?_, ?_, r1, r2⟩
  · intro hne hle
    apply hw
    have : p.1 % 256 ≤ p.1 := Nat.mod_le _ _
    rcases hle with hle | hle
    · rw [Nat.mod_eq_of_lt hle]; exact hne
    · omega
  · intro ha he
    exact read_requests W address buffer N b ha he
  · intro ha he hne hlt
    apply r3 ha he
    rw [Nat.mod_eq_of_lt hlt]; exact hne
  · intro ha he hg hd
    have hb := (drain_bounds W N (N + 1) 0 buffer g.2).2 (Nat.zero_le _)
    rw [r4 ha he hg hd]
    exact ⟨rfl, lt_of_le_of_ne hb hd, drain_length W N (N + 1) 0 buffer g.2,
      drain_drop W N (N + 1) 0 buffer g.2,
      fun j h1 h2 => drain_stored W N (N + 1) 0 buffer g.2 j (Nat.zero_le _) h1 h2⟩
  · exact drain_fuel_enough W N buffer g.2

/-- An instance of the amended C8: six bytes are granted and two, 0xAA and 0xBB, are
drained into the first two places of the buffer. -/
theorem transfer_count_mismatch_witness :
    ((Wire.write scripted XL_OUT (Wire.beginTransmission scripted ACCELEROMETER (accepting [0xAA, 0xBB]))).1 % 256 = 1 ∧
      (Wire.endTransmission scripted false (Wire.write scripted XL_OUT (Wire.beginTransmission scripted ACCELEROMETER (accepting [0xAA, 0xBB]))).2).1 % 256 = 0 ∧
      (Wire.requestFrom scripted ACCELEROMETER 6 (Wire.endTransmission scripted false (Wire.write scripted XL_OUT (Wire.beginTransmission scripted ACCELEROMETER (accepting [0xAA, 0xBB]))).2).2).1 % 256 = 6 ∧
      (drain scripted 6 (6 + 1) 0 [1, 2, 3, 4, 5, 6] (Wire.requestFrom scripted ACCELEROMETER 6 (Wire.endTransmission scripted false (Wire.write scripted XL_OUT (Wire.beginTransmission scripted ACCELEROMETER (accepting [0xAA, 0xBB]))).2).2).2).1 ≠ 6) ∧
    ((read scripted XL_OUT [1, 2, 3, 4, 5, 6] 6 (accepting [0xAA, 0xBB])).1 = BADLENGTH ∧
      (drain scripted 6 (6 + 1) 0 [1, 2, 3, 4, 5, 6] (Wire.requestFrom scripted ACCELEROMETER 6 (Wire.endTransmission scripted false (Wire.write scripted XL_OUT (Wire.beginTransmission scripted ACCELEROMETER (accepting [0xAA, 0xBB]))).2).2).2).1 < 6 ∧
      (read scripted XL_OUT [1, 2, 3, 4, 5, 6] 6 (accepting [0xAA, 0xBB])).2.1.length = [1, 2, 3, 4, 5, 6].length ∧
      (read scripted XL_OUT [1, 2, 3, 4, 5, 6] 6 (accepting [0xAA, 0xBB])).2.1.drop (drain scripted 6 (6 + 1) 0 [1, 2, 3, 4, 5, 6] (Wire.requestFrom scripted ACCELEROMETER 6 (Wire.endTransmission scripted false (Wire.write scripted XL_OUT (Wire.beginTransmission scripted ACCELEROMETER (accepting [0xAA, 0xBB]))).2).2).2).1
        = [1, 2, 3, 4, 5, 6].drop (drain scripted 6 (6 + 1) 0 [1, 2, 3, 4, 5, 6] (Wire.requestFrom scripted ACCELEROMETER 6 (Wire.endTransmission scripted false (Wire.write scripted XL_OUT (Wire.beginTransmission scripted ACCELEROMETER (accepting [0xAA, 0xBB]))).2).2).2).1 ∧
      (∀ j, j < (drain scripted 6 (6 + 1) 0 [1, 2, 3, 4, 5, 6] (Wire.requestFrom scripted ACCELEROMETER 6 (Wire.endTransmission scripted false (Wire.write scripted XL_OUT (Wire.beginTransmission scripted ACCELEROMETER (accepting [0xAA, 0xBB]))).2).2).2).1 →
        j < [1, 2, 3, 4, 5, 6].length →
        (read scripted XL_OUT [1, 2, 3, 4, 5, 6] 6 (accepting [0xAA, 0xBB])).2.1[j]?
          = some (((Wire.fetch scripted ((fun s => (Wire.fetch scripted s).2)^[j]
              (Wire.requestFrom scripted ACCELEROMETER 6 (Wire.endTransmission scripted false (Wire.write scripted XL_OUT (Wire.beginTransmission scripted ACCELEROMETER (accepting [0xAA, 0xBB]))).2).2).2)).1 % 256).toNat))) ∧
    (drain scripted 6 (6 + 1) 0 [1, 2, 3, 4, 5, 6] (Wire.requestFrom scripted ACCELEROMETER 6 (Wire.endTransmission scripted false (Wire.write scripted XL_OUT (Wire.beginTransmission scripted ACCELEROMETER (accepting [0xAA, 0xBB]))).2).2).2).1 = 2 ∧
    (read scripted XL_OUT [1, 2, 3, 4, 5, 6] 6 (accepting [0xAA, 0xBB])).2.1 = [0xAA, 0xBB, 3, 4, 5, 6] ∧
    ((Wire.fetch scripted (Wire.requestFrom scripted ACCELEROMETER 6 (Wire.endTransmission scripted false (Wire.write scripted XL_OUT (Wire.beginTransmission scripted ACCELEROMETER (accepting [0xAA, 0xBB]))).2).2).2).1 % 256).toNat = 0xAA ∧
    ((Wire.fetch scripted (Wire.fetch scripted (Wire.requestFrom scripted ACCELEROMETER 6 (Wire.endTransmission scripted false (Wire.write scripted XL_OUT (Wire.beginTransmission scripted ACCELEROMETER (accepting [0xAA, 0xBB]))).2).2).2).2).1 % 256).toNat = 0xBB :=
  ⟨⟨by decide, by decide, by decide, by decide⟩,
    (transfer_count_mismatch scripted XL_OUT [1, 2, 3, 4, 5, 6] 6 (accepting [0xAA, 0xBB])).2.2.2.2.2.1
      (by decide) (by decide) (by decide) (by decide),
    by decide, by decide, by decide, by decide⟩

/-- C8 fails as stated in two places.  A read of six bytes that is granted six but
finds two in the receive queue returns BADLENGTH with the first two places of the
buffer of the caller overwritten.  A write of one byte for which the bus reports a
count of 257 returns SUCCESS: the count is kept in a `uint8_t`, where it is 1. -/
theorem read_failure_modifies_buffer :
    ((read scripted XL_OUT [1, 2, 3, 4, 5, 6] 6 (accepting [0xAA, 0xBB])).1 = BADLENGTH ∧
      (read scripted XL_OUT [1, 2, 3, 4, 5, 6] 6 (accepting [0xAA, 0xBB])).2.1
        = [0xAA, 0xBB, 3, 4, 5, 6] ∧
      (read scripted XL_OUT [1, 2, 3, 4, 5, 6] 6 (accepting [0xAA, 0xBB])).2.1
        ≠ [1, 2, 3, 4, 5, 6]) ∧
    ((Wire.writeBuffer scripted [0x04] 1 (overcounting [])).1 = 257 ∧
      (write scripted CTL1 [0x04] 1 (overcounting [])).1 = SUCCESS ∧
      (write scripted CTL1 [0x04] 1 (overcounting [])).1 ≠ NOWRITE) := by
  decide

/-! ## `Motion::calibrate` -/

theorem orientation_bus (W : TwoWire σ) (xyz : accelerometer) (x y z : Int) (b : Bus σ) :
    (orientation W xyz x y z b).2.2 = (read W XL_OUT xyz.bytes 6 b).2.2 := by
  unfold orientation
  simp only []
  split_ifs <;> rfl

theorem calibrateStep_log (W : TwoWire σ) (sensitivity : Nat) (xyz acc : accelerometer)
    (b : Bus σ) :
    ∃ r w, (calibrateStep W sensitivity xyz acc b).2.log = b.log ++ (r ++ w ++ [Call.delay 200]) ∧
      (∀ c ∈ r, readPhase XL_OUT 6 c = true) ∧
      w ∈ writeCalls XL_OFF (calibrateStep W sensitivity xyz acc b).1.bytes 6 := by
  obtain ⟨r, hr, hc⟩ := read_log W XL_OUT xyz.bytes 6 b
  obtain ⟨w, hw, hl⟩ := write_log W XL_OFF (calibrateStep W sensitivity xyz acc b).1.bytes 6
    (orientation W xyz acc.values_x acc.values_y acc.values_z b).2.2
  refine ⟨r, w, ?_, hc, hw⟩
  have e : (calibrateStep W sensitivity xyz acc b).2.log
      = (write W XL_OFF (calibrateStep W sensitivity xyz acc b).1.bytes 6
          (orientation W xyz acc.values_x acc.values_y acc.values_z b).2.2).2.log
        ++ [Call.delay 200] := rfl
  rw [e, hl, orientation_bus, hr]
  simp

/-- The loop of `calibrate` is three passes of its body. -/
theorem calibrate_unfold (W : TwoWire σ) (self : Motion) (xyz acc : accelerometer) (b : Bus σ) :
    calibrate W self xyz acc b
      = (calibrateStep W (getSensitivity self) xyz
          (calibrateStep W (getSensitivity self) xyz
            (calibrateStep W (getSensitivity self) xyz acc b).1
            (calibrateStep W (getSensitivity self) xyz acc b).2).1
          (calibrateStep W (getSensitivity self) xyz
            (calibrateStep W (getSensitivity self) xyz acc b).1
            (calibrateStep W (getSensitivity self) xyz acc b).2).2).2 := by
  rfl

theorem calibrateLoop_fuel (W : TwoWire σ) (sensitivity : Nat) (xyz acc : accelerometer)
    (b : Bus σ) (k : Nat) :
    calibrateLoop W sensitivity xyz (3 + k) 0 acc b = calibrateLoop W sensitivity xyz 3 0 acc b := by
  rw [Nat.add_comm]
  rfl

theorem readPhase_counts (r : List Call) (h : ∀ c ∈ r, readPhase XL_OUT 6 c = true) :
    r.count (Call.write XL_OFF) = 0 ∧ r.countP Call.isDelay = 0 ∧ r.countP Call.isPayload = 0 := by
  refine ⟨List.count_eq_zero_of_not_mem fun hm => ?_, ?_, ?_⟩
  · have := h _ hm
    simp [readPhase] at this
  · rw [List.countP_eq_zero]
    intro c hm hd
    have := h c hm
    cases c <;> simp [readPhase, Call.isDelay] at this hd
  · rw [List.countP_eq_zero]
    intro c hm hd
    have := h c hm
    cases c <;> simp [readPhase, Call.isPayload] at this hd

theorem writeCalls_counts (o : List Nat) (w : List Call) (h : w ∈ writeCalls XL_OFF o 6) :
    w.count (Call.write XL_OFF) = 1 ∧ w.countP Call.isDelay = 0 ∧
      w.count (Call.delay 200) = 0 := by
  simp only [writeCalls, List.mem_cons, List.mem_singleton] at h
  rcases h with h | h | h | h
  · subst h; exact ⟨by simp [List.count_cons], rfl, by simp [List.count_cons]⟩
  · subst h; exact ⟨by simp [List.count_cons], rfl, by simp [List.count_cons]⟩
  · subst h; exact ⟨by simp [List.count_cons], rfl, by simp [List.count_cons]⟩
  · exact absurd h (List.not_mem_nil _)

/-- The bus after one pass of the body: the bus `read` leaves, then the bus `write`
leaves when it is given the six bytes of the union, then the delay. -/
theorem calibrateStep_bus (W : TwoWire σ) (sensitivity : Nat) (xyz acc : accelerometer)
    (b : Bus σ) :
    (calibrateStep W sensitivity xyz acc b).2
      = Wire.delay W 200 (write W XL_OFF (calibrateStep W sensitivity xyz acc b).1.bytes 6
          (read W XL_OUT xyz.bytes 6 b).2.2).2 := by
  have e : (calibrateStep W sensitivity xyz acc b).2
      = Wire.delay W 200 (write W XL_OFF (calibrateStep W sensitivity xyz acc b).1.bytes 6
          (orientation W xyz acc.values_x acc.values_y acc.values_z b).2.2).2 := rfl
  rw [e, orientation_bus]

/-- C7: whatever the bus does, `calibrate` makes three passes and stops.  The bus it
leaves is the one obtained by running, three times over and in this order, the
burst read of six bytes from register 0x00, one `write` of six bytes to the offset
register 0x10, and a delay of 200 ms, each on the bus the step before left.  The calls
added to the log are those of these reads, writes and delays: three writes to 0x10
and three delays in all, each delay right after a write.  No bound on the passes
above three changes the result. -/
theorem calibrate_three_passes (W : TwoWire σ) (self : Motion) (xyz acc : accelerometer)
    (b : Bus σ) :
    (∀ k, (calibrateLoop W (getSensitivity self) xyz (3 + k) 0 acc b).2
      = calibrate W self xyz acc b) ∧
    ∃ o1 o2 o3 : accelerometer, ∃ b1 b2 b3 b4 b5 b6 b7 b8 b9 : Bus σ,
    ∃ r1 w1 r2 w2 r3 w3 t : List Call,
      b1 = (read W XL_OUT xyz.bytes 6 b).2.2 ∧
      b2 = (write W XL_OFF o1.bytes 6 b1).2 ∧
      b3 = Wire.delay W 200 b2 ∧
      b4 = (read W XL_OUT xyz.bytes 6 b3).2.2 ∧
      b5 = (write W XL_OFF o2.bytes 6 b4).2 ∧
      b6 = Wire.delay W 200 b5 ∧
      b7 = (read W XL_OUT xyz.bytes 6 b6).2.2 ∧
      b8 = (write W XL_OFF o3.bytes 6 b7).2 ∧
      b9 = Wire.delay W 200 b8 ∧
      calibrate W self xyz acc b = b9 ∧
      b1.log = b.log ++ r1 ∧ b2.log = b1.log ++ w1 ∧ b3.log = b2.log ++ [Call.delay 200] ∧
      b4.log = b3.log ++ r2 ∧ b5.log = b4.log ++ w2 ∧ b6.log = b5.log ++ [Call.delay 200] ∧
      b7.log = b6.log ++ r3 ∧ b8.log = b7.log ++ w3 ∧ b9.log = b8.log ++ [Call.delay 200] ∧
      (calibrate W self xyz acc b).log = b.log ++ t ∧
      t = (r1 ++ w1 ++ [Call.delay 200]) ++ (r2 ++ w2 ++ [Call.delay 200])
            ++ (r3 ++ w3 ++ [Call.delay 200]) ∧
      (∀ c ∈ r1 ++ r2 ++ r3, readPhase XL_OUT 6 c = true) ∧
      w1 ∈ writeCalls XL_OFF o1.bytes 6 ∧ w2 ∈ writeCalls XL_OFF o2.bytes 6 ∧
      w3 ∈ writeCalls XL_OFF o3.bytes 6 ∧
      t.count (Call.write XL_OFF) = 3 ∧ t.countP Call.isDelay = 3 ∧
      t.count (Call.delay 200) = 3 := by
  refine ⟨fun k => by rw [calibrateLoop_fuel]; rfl, ?_⟩
  have s1 := calibrateStep_bus W (getSensitivity self) xyz acc b
  have s2 := calibrateStep_bus W (getSensitivity self) xyz
    (calibrateStep W (getSensitivity self) xyz acc b).1
    (calibrateStep W (getSensitivity self) xyz acc b).2
  have s3 := calibrateStep_bus W (getSensitivity self) xyz
    (calibrateStep W (getSensitivity self) xyz
      (calibrateStep W (getSensitivity self) xyz acc b).1
      (calibrateStep W (getSensitivity self) xyz acc b).2).1
    (calibrateStep W (getSensitivity self) xyz
      (calibrateStep W (getSensitivity self) xyz acc b).1
      (calibrateStep W (getSensitivity self) xyz acc b).2).2
  generalize (calibrateStep W (getSensitivity self) xyz
      (calibrateStep W (getSensitivity self) xyz
        (calibrateStep W (getSensitivity self) xyz acc b).1
        (calibrateStep W (getSensitivity self) xyz acc b).2).1
      (calibrateStep W (getSensitivity self) xyz
        (calibrateStep W (getSensitivity self) xyz acc b).1
        (calibrateStep W (getSensitivity self) xyz acc b).2).2).1 = o3 at s3
  have hc : calibrate W self xyz acc b
      = (calibrateStep W (getSensitivity self) xyz
          (calibrateStep W (getSensitivity self) xyz
            (calibrateStep W (getSensitivity self) xyz acc b).1
            (calibrateStep W (getSensitivity self) xyz acc b).2).1
          (calibrateStep W (getSensitivity self) xyz
            (calibrateStep W (getSensitivity self) xyz acc b).1
            (calibrateStep W (getSensitivity self) xyz acc b).2).2).2 :=
    calibrate_unfold W self xyz acc b
  rw [s3] at hc
  generalize (calibrateStep W (getSensitivity self) xyz
      (calibrateStep W (getSensitivity self) xyz acc b).1
      (calibrateStep W (getSensitivity self) xyz acc b).2).1 = o2 at s2
  rw [s2] at hc
  generalize (calibrateStep W (getSensitivity self) xyz acc b).1 = o1 at s1
  rw [s1] at hc
  obtain ⟨r1, l1, c1⟩ := read_log W XL_OUT xyz.bytes 6 b
  obtain ⟨w1, m1, k1⟩ := write_log W XL_OFF o1.bytes 6 (read W XL_OUT xyz.bytes 6 b).2.2
  obtain ⟨r2, l2, c2⟩ := read_log W XL_OUT xyz.bytes 6
    (Wire.delay W 200 (write W XL_OFF o1.bytes 6 (read W XL_OUT xyz.bytes 6 b).2.2).2)
  obtain ⟨w2, m2, k2⟩ := write_log W XL_OFF o2.bytes 6 (read W XL_OUT xyz.bytes 6
    (Wire.delay W 200 (write W XL_OFF o1.bytes 6 (read W XL_OUT xyz.bytes 6 b).2.2).2)).2.2
  obtain ⟨r3, l3, c3⟩ := read_log W XL_OUT xyz.bytes 6
    (Wire.delay W 200 (write W XL_OFF o2.bytes 6 (read W XL_OUT xyz.bytes 6
      (Wire.delay W 200 (write W XL_OFF o1.bytes 6 (read W XL_OUT xyz.bytes 6 b).2.2).2)).2.2).2)
  obtain ⟨w3, m3, k3⟩ := write_log W XL_OFF o3.bytes 6 (read W XL_OUT xyz.bytes 6
    (Wire.delay W 200 (write W XL_OFF o2.bytes 6 (read W XL_OUT xyz.bytes 6
      (Wire.delay W 200 (write W XL_OFF o1.bytes 6
        (read W XL_OUT xyz.bytes 6 b).2.2).2)).2.2).2)).2.2
  obtain ⟨a1, d1, -⟩ := readPhase_counts r1 c1
  obtain ⟨a2, d2, -⟩ := readPhase_counts r2 c2
  obtain ⟨a3, d3, -⟩ := readPhase_counts r3 c3
  obtain ⟨x1, y1, z1⟩ := writeCalls_counts _ w1 m1
  obtain ⟨x2, y2, z2⟩ := writeCalls_counts _ w2 m2
  obtain ⟨x3, y3, z3⟩ := writeCalls_counts _ w3 m3
  have n1 : List.count (Call.delay 200) r1 = 0 :=
    List.count_eq_zero_of_not_mem fun hm => by simpa [readPhase] using c1 _ hm
  have n2 : List.count (Call.delay 200) r2 = 0 :=
    List.count_eq_zero_of_not_mem fun hm => by simpa [readPhase] using c2 _ hm
  have n3 : List.count (Call.delay 200) r3 = 0 :=
    List.count_eq_zero_of_not_mem fun hm => by simpa [readPhase] using c3 _ hm
  refine ⟨o1, o2, o3, _, _, _, _, _, _, _, _, _, r1, w1, r2, w2, r3, w3, _,
    rfl, rfl, rfl, rfl, rfl, rfl, rfl, rfl, rfl, hc, l1, k1, rfl, l2, k2, rfl, l3, k3, rfl,
    ?_, rfl, ?_, m1, m2, m3, ?_, ?_, ?_⟩
  · rw [hc]
    show (write W XL_OFF o3.bytes 6 _).2.log ++ [Call.delay 200] = _
    rw [k3, l3]
    show ((write W XL_OFF o2.bytes 6 _).2.log ++ [Call.delay 200]) ++ r3 ++ w3
      ++ [Call.delay 200] = _
    rw [k2, l2]
    show ((((write W XL_OFF o1.bytes 6 _).2.log ++ [Call.delay 200]) ++ r2 ++ w2
      ++ [Call.delay 200]) ++ r3 ++ w3) ++ [Call.delay 200] = _
    rw [k1, l1]
    simp only [List.append_assoc]
  · intro c hm
    simp only [List.mem_append] at hm
    rcases hm with (hm | hm) | hm
    · exact c1 c hm
    · exact c2 c hm
    · exact c3 c hm
  · simp [List.count_append, a1, a2, a3, x1, x2, x3, List.count_cons]
  · simp [List.countP_append, d1, d2, d3, y1, y2, y3, Call.isDelay]
  · simp [List.count_append, n1, n2, n3, z1, z2, z3]

/-- An instance of C7 on a bus that accepts every byte: the log of `calibrate` holds
three payloads of six bytes, three writes of the address 0x10, three delays of
200 ms, and six transmissions begun (three reads, three writes). -/
theorem calibrate_three_passes_witness :
    (∀ k, (calibrateLoop scripted (getSensitivity ⟨MEASUREMENT, GS_2G_MODE⟩) ⟨0, 0, 0, 0, 0, 0⟩
        (3 + k) 0 ⟨0, 0, 0, 0, 0, 0⟩ (accepting [0x01, 0x00, 0x02, 0x00, 0x46, 0x00])).2
      = calibrate scripted ⟨MEASUREMENT, GS_2G_MODE⟩ ⟨0, 0, 0, 0, 0, 0⟩ ⟨0, 0, 0, 0, 0, 0⟩
          (accepting [0x01, 0x00, 0x02, 0x00, 0x46, 0x00])) ∧
    (calibrate scripted ⟨MEASUREMENT, GS_2G_MODE⟩ ⟨0, 0, 0, 0, 0, 0⟩ ⟨0, 0, 0, 0, 0, 0⟩
      (accepting [0x01, 0x00, 0x02, 0x00, 0x46, 0x00])).log.countP Call.isPayload = 3 ∧
    (calibrate scripted ⟨MEASUREMENT, GS_2G_MODE⟩ ⟨0, 0, 0, 0, 0, 0⟩ ⟨0, 0, 0, 0, 0, 0⟩
      (accepting [0x01, 0x00, 0x02, 0x00, 0x46, 0x00])).log.count (Call.write XL_OFF) = 3 ∧
    (calibrate scripted ⟨MEASUREMENT, GS_2G_MODE⟩ ⟨0, 0, 0, 0, 0, 0⟩ ⟨0, 0, 0, 0, 0, 0⟩
      (accepting [0x01, 0x00, 0x02, 0x00, 0x46, 0x00])).log.count (Call.delay 200) = 3 ∧
    (calibrate scripted ⟨MEASUREMENT, GS_2G_MODE⟩ ⟨0, 0, 0, 0, 0, 0⟩ ⟨0, 0, 0, 0, 0, 0⟩
      (accepting [0x01, 0x00, 0x02, 0x00, 0x46, 0x00])).log.countP Call.isDelay = 3 ∧
    (calibrate scripted ⟨MEASUREMENT, GS_2G_MODE⟩ ⟨0, 0, 0, 0, 0, 0⟩ ⟨0, 0, 0, 0, 0, 0⟩
      (accepting [0x01, 0x00, 0x02, 0x00, 0x46, 0x00])).log.countP Call.isBegin = 6 ∧
    (calibrate scripted ⟨MEASUREMENT, GS_2G_MODE⟩ ⟨0, 0, 0, 0, 0, 0⟩ ⟨0, 0, 0, 0, 0, 0⟩
      (accepting [0x01, 0x00, 0x02, 0x00, 0x46, 0x00])).log.getLast? = some (Call.delay 200) :=
  ⟨(calibrate_three_passes scripted ⟨MEASUREMENT, GS_2G_MODE⟩ ⟨0, 0, 0, 0, 0, 0⟩
      ⟨0, 0, 0, 0, 0, 0⟩ (accepting [0x01, 0x00, 0x02, 0x00, 0x46, 0x00])).1,
    by decide, by decide, by decide, by decide, by decide, by decide⟩

theorem toInt16_range (lsb msb : Nat) : -32768 ≤ toInt16 lsb msb ∧ toInt16 lsb msb < 32768 := by
  unfold toInt16
  split_ifs <;> omega

theorem wrap16_range (v : Int) : -32768 ≤ wrap16 v ∧ wrap16 v < 32768 := by
  unfold wrap16
  split_ifs <;> omega

theorem toInt16_bytes (v : Int) (h : -32768 ≤ v ∧ v < 32768) :
    toInt16 (lowByte v) (highByte v) = v := by
  unfold toInt16 lowByte highByte
  split_ifs <;> omega

theorem orientation_range (W : TwoWire σ) (xyz : accelerometer) (lx mx ly my lz mz : Nat)
    (b : Bus σ) :
    let o := (orientation W xyz (toInt16 lx mx) (toInt16 ly my) (toInt16 lz mz) b).2.1
    (-32768 ≤ o.1 ∧ o.1 < 32768) ∧ (-32768 ≤ o.2.1 ∧ o.2.1 < 32768) ∧
      (-32768 ≤ o.2.2 ∧ o.2.2 < 32768) := by
  intro o
  by_cases h : (read W XL_OUT xyz.bytes 6 b).1 = SUCCESS
  · have e := orientation_success W xyz (toInt16 lx mx) (toInt16 ly my) (toInt16 lz mz) b h
    simp only [o, e]
    exact ⟨toInt16_range _ _, toInt16_range _ _, toInt16_range _ _⟩
  · have e := orientation_failure W xyz (toInt16 lx mx) (toInt16 ly my) (toInt16 lz mz) b h
    simp only [o, e]
    exact ⟨toInt16_range _ _, toInt16_range _ _, toInt16_range _ _⟩

/-- What one pass of `calibrate` puts in the union before writing it to the offset
registers, from the outputs `(x, y, z)` of `orientation`: the values `-x`, `-y` and
`2 * sensitivity - z`, reduced to 16 bits.  The statement `v += 2 * -v` adds the
doubled negation to the value read, which leaves the plain negation. -/
theorem calibrateStep_offsets (W : TwoWire σ) (sensitivity : Nat) (xyz acc : accelerometer)
    (b : Bus σ) :
    let o := (orientation W xyz acc.values_x acc.values_y acc.values_z b).2.1
    (calibrateStep W sensitivity xyz acc b).1.values_x = wrap16 (-o.1) ∧
    (calibrateStep W sensitivity xyz acc b).1.values_y = wrap16 (-o.2.1) ∧
    (calibrateStep W sensitivity xyz acc b).1.values_z = wrap16 (2 * sensitivity - o.2.2) := by
  intro o
  obtain ⟨hx, hy, hz⟩ := orientation_range W xyz acc.x_lsb acc.x_msb acc.y_lsb acc.y_msb
    acc.z_lsb acc.z_msb b
  simp only [o, calibrateStep, accelerometer.values_x, accelerometer.values_y,
    accelerometer.values_z, accelerometer.set_x, accelerometer.set_y, accelerometer.set_z] at *
  rw [toInt16_bytes _ hx, toInt16_bytes _ hy, toInt16_bytes _ hz,
    toInt16_bytes _ (wrap16_range _), toInt16_bytes _ (wrap16_range _),
    toInt16_bytes _ (wrap16_range _)]
  refine ⟨?_, ?_, ?_⟩
  · congr 1; ring
  · congr 1; ring
  · congr 1; ring

/-- C6 at a device that answers every burst read with x = 1, y = 2, z = 70, in the
2g sensitivity (scale byte 0x40 = 64): each of the three passes writes the bytes of
-1, -2 and 58 to the offset registers, where -2x = -2, -2y = -4 and
-2(z - 64) = -12 would be the bytes FE FF FC FF F4 FF. -/
theorem calibrate_writes_single_negation :
    (orientation scripted ⟨0, 0, 0, 0, 0, 0⟩ 0 0 0
      (accepting [0x01, 0x00, 0x02, 0x00, 0x46, 0x00])).1 = SUCCESS ∧
    (orientation scripted ⟨0, 0, 0, 0, 0, 0⟩ 0 0 0
      (accepting [0x01, 0x00, 0x02, 0x00, 0x46, 0x00])).2.1 = (1, 2, 70) ∧
    getSensitivity ⟨MEASUREMENT, GS_2G_MODE⟩ = 0x40 ∧
    (calibrate scripted ⟨MEASUREMENT, GS_2G_MODE⟩ ⟨0, 0, 0, 0, 0, 0⟩ ⟨0, 0, 0, 0, 0, 0⟩
      (accepting [0x01, 0x00, 0x02, 0x00, 0x46, 0x00])).log.filter Call.isPayload
      = [Call.writeBuffer [0xFF, 0xFF, 0xFE, 0xFF, 0x3A, 0x00] 6,
         Call.writeBuffer [0xFF, 0xFF, 0xFE, 0xFF, 0x3A, 0x00] 6,
         Call.writeBuffer [0xFF, 0xFF, 0xFE, 0xFF, 0x3A, 0x00] 6] ∧
    [lowByte (-2 * 1), highByte (-2 * 1), lowByte (-2 * 2), highByte (-2 * 2),
      lowByte (-2 * (70 - 64)), highByte (-2 * (70 - 64))]
      = [0xFE, 0xFF, 0xFC, 0xFF, 0xF4, 0xFF] := by
  decide

end Motion
